import Mathlib

/-!
# xen-server-nodejs: session manager, operation gateway, routes and start-up

A shallow embedding of `src/XenServer.mjs`, `src/routes.mjs` and `src/index.mjs`.

* JavaScript values are the JSON-shaped values of `JSVal` together with `undefined`.
  Numbers are exact integers: the code only tests them for truthiness and passes them on.
* Thrown values are `JSError`: an instance of the module's `XenServerError` class, any other
  `Error` object (runtime `TypeError`, errors of the RPC client), or any other value a promise
  may be rejected with, `null` and `undefined` included.
* The remote hypervisor API is an arbitrary oracle (`Remote`) that answers every call,
  successfully or with an error, depending on the whole history of calls so far;
  `XenAPI.connect` may resolve to a connection object or to any other value.
* Asynchronous functions are run to completion; every awaited call is a step of the
  state-passing computation `Op`, whose state holds the module-level `xapiConnection`,
  the history of remote calls and the console output.
-/

namespace XenServer

/-! ## JavaScript values -/

/-- JavaScript values: `undefined` and the values of JSON. -/
inductive JSVal where
  | undefined
  | null
  | bool (b : Bool)
  | num (n : Int)
  | str (s : String)
  | arr (xs : List JSVal)
  | obj (props : List (String × JSVal))

namespace JSVal

mutual
/-- Structural equality test on values. -/
def beq : JSVal → JSVal → Bool
  | .undefined, .undefined => true
  | .null, .null => true
  | .bool a, .bool b => a == b
  | .num a, .num b => a == b
  | .str a, .str b => a == b
  | .arr a, .arr b => beqList a b
  | .obj a, .obj b => beqProps a b
  | _, _ => false
/-- Structural equality test on arrays of values. -/
def beqList : List JSVal → List JSVal → Bool
  | [], [] => true
  | x :: xs, y :: ys => beq x y && beqList xs ys
  | _, _ => false
/-- Structural equality test on property lists. -/
def beqProps : List (String × JSVal) → List (String × JSVal) → Bool
  | [], [] => true
  | (k, x) :: xs, (l, y) :: ys => k == l && beq x y && beqProps xs ys
  | _, _ => false
end

mutual
theorem beq_iff : ∀ a b : JSVal, beq a b = true ↔ a = b
  | .undefined, b => by cases b <;> simp [beq]
  | .null, b => by cases b <;> simp [beq]
  | .bool a, b => by cases b <;> simp [beq]
  | .num a, b => by cases b <;> simp [beq]
  | .str a, b => by cases b <;> simp [beq]
  | .arr a, b => by cases b <;> simp [beq, beqList_iff a]
  | .obj a, b => by cases b <;> simp [beq, beqProps_iff a]
theorem beqList_iff : ∀ a b : List JSVal, beqList a b = true ↔ a = b
  | [], b => by cases b <;> simp [beqList]
  | x :: xs, b => by cases b <;> simp [beqList, beq_iff x, beqList_iff xs]
theorem beqProps_iff : ∀ a b : List (String × JSVal), beqProps a b = true ↔ a = b
  | [], b => by cases b <;> simp [beqProps]
  | (k, x) :: xs, b => by
    cases b with
    | nil => simp [beqProps]
    | cons p ys =>
      obtain ⟨l, y⟩ := p
      simp [beqProps, beq_iff x, beqProps_iff xs, and_assoc]
end

instance : DecidableEq JSVal := fun a b =>
  if h : beq a b = true then isTrue ((beq_iff a b).1 h)
  else isFalse (fun e => h ((beq_iff a b).2 e))

end JSVal

/-- JavaScript truthiness (`ToBoolean`): `undefined`, `null`, `false`, `0` and `''` are falsy. -/
def truthy : JSVal → Bool
  | .undefined => false
  | .null => false
  | .bool b => b
  | .num n => n != 0
  | .str s => s != ""
  | .arr _ => true
  | .obj _ => true

/-- The test `v === 'lit'` against a string literal: a string primitive with the same text. -/
def strictEqString (v : JSVal) (lit : String) : Bool :=
  match v with
  | .str t => t == lit
  | _ => false

/-- Thrown values. `xenServerError message type` is an instance of the module's class
`XenServerError`; `other name message code` is any other `Error` object (`code` is its
optional `code` property); `value v` is any other value that a promise is rejected with:
`null`, `undefined`, a primitive or a plain object. -/
inductive JSError where
  | xenServerError (message : String) (type : String)
  | other (name : String) (message : String) (code : Option String)
  | value (v : JSVal)
  deriving DecidableEq

/-- The test `error instanceof XenServerError`. -/
def JSError.isXenServerError : JSError → Bool
  | .xenServerError _ _ => true
  | _ => false

/-- The runtime error of reading a property of `undefined` or `null`. -/
def typeError (what : String) (key : String) : JSError :=
  .other "TypeError" ("Cannot read properties of " ++ what ++ " (reading " ++ key ++ ")") none

/-- The runtime error of calling what is not a function. -/
def notAFunction (what : String) : JSError :=
  .other "TypeError" (what ++ " is not a function") none

/-- Property read `v.key` (or `v[key]`), for the property names the sources read, none of
which is defined on the prototypes of strings, numbers, booleans or arrays: it throws on
`undefined` and `null`, looks the key up in an object, and is `undefined` elsewhere. -/
def getProp (v : JSVal) (key : String) : Except JSError JSVal :=
  match v with
  | .undefined => .error (typeError "undefined" key)
  | .null => .error (typeError "null" key)
  | .obj props => .ok ((props.lookup key).getD .undefined)
  | _ => .ok .undefined

/-- The read `error.message`: the message of an `Error` object, the property `message` of
any other value; on `null` and `undefined` the read itself throws. -/
def JSError.message : JSError → Except JSError JSVal
  | .xenServerError m _ => .ok (.str m)
  | .other _ m _ => .ok (.str m)
  | .value v => getProp v "message"

/-- The read `error.code`. -/
def JSError.code : JSError → Except JSError JSVal
  | .xenServerError _ _ => .ok .undefined
  | .other _ _ (some c) => .ok (.str c)
  | .other _ _ none => .ok .undefined
  | .value v => getProp v "code"

mutual
/-- The conversion `ToString` of template literals. -/
def toJSString : JSVal → String
  | .undefined => "undefined"
  | .null => "null"
  | .bool b => if b then "true" else "false"
  | .num n => toString n
  | .str s => s
  | .arr xs => joinElements xs
  | .obj _ => "[object Object]"
/-- The method `Array.prototype.join` with the default separator: `null` and `undefined`
elements give the empty string. -/
def joinElements : List JSVal → String
  | [] => ""
  | [.undefined] => ""
  | [.null] => ""
  | [x] => toJSString x
  | .undefined :: xs => "," ++ joinElements xs
  | .null :: xs => "," ++ joinElements xs
  | x :: xs => toJSString x ++ "," ++ joinElements xs
end

/-- The JavaScript `Object.values(v)`: the own enumerable property values, in property order. -/
def objectValues (v : JSVal) : Except JSError (List JSVal) :=
  match v with
  | .undefined => .error (.other "TypeError" "Cannot convert undefined or null to object" none)
  | .null => .error (.other "TypeError" "Cannot convert undefined or null to object" none)
  | .obj props => .ok (props.map Prod.snd)
  | .arr xs => .ok xs
  | .str s => .ok (s.toList.map (fun ch => .str (String.singleton ch)))
  | _ => .ok []

/-- The method `s.includes(sub)` of strings. -/
def includes (s sub : String) : Bool :=
  s.toList.tails.any (fun t => sub.toList.isPrefixOf t)

/-- The call `m.includes(sub)` on the value read from `error.message`: the string method on
a string, the array method on an array, and a `TypeError` on every other value, which has
no callable `includes`. -/
def messageIncludes (m : JSVal) (sub : String) : Except JSError Bool :=
  match m with
  | .str s => .ok (includes s sub)
  | .arr xs => .ok (decide (JSVal.str sub ∈ xs))
  | .undefined => .error (typeError "undefined" "includes")
  | .null => .error (typeError "null" "includes")
  | _ => .error (notAFunction "error.message.includes")

/-! ## Module state, remote API and the computation type -/

/-- A connection object returned by `XenAPI.connect`. -/
structure Conn where
  id : Nat
  deriving DecidableEq

/-- What the module-level variable `xapiConnection` holds and what `XenAPI.connect` resolves
to: a connection object of the client, or any other value. The variable is declared without
initialiser (`undefined`), assigned by `connectToXenServer` and set to `null` by
`disconnectFromXenServer`. -/
inductive SessionRef where
  | conn (c : Conn)
  | value (v : JSVal)
  deriving DecidableEq

/-- The session reference `undefined`. -/
@[reducible] def SessionRef.undefined : SessionRef := .value .undefined

/-- The session reference `null`. -/
@[reducible] def SessionRef.null : SessionRef := .value .null

/-- Truthiness of the session reference: a connection object is truthy. -/
def SessionRef.truthy : SessionRef → Bool
  | .conn _ => true
  | .value v => XenServer.truthy v

/-- The constant `SERVER_CONFIG`; an absent field is `none`. -/
structure ServerConfig where
  host : Option String
  username : Option String
  password : Option String
  deriving DecidableEq

/-- The object literal of `SERVER_CONFIG` in the source. -/
def SERVER_CONFIG : ServerConfig :=
  { host := some "your_xcp_ng_host", username := some "your_username",
    password := some "your_password" }

/-- Calls made to the `xen-api` client, with their arguments. -/
inductive Call where
  | connect (config : ServerConfig)
  | disconnect (c : Conn)
  | get_all_records
  | get_record (uuid : JSVal)
  | metrics_get_record (ref : JSVal)
  | start (ref : JSVal) (startPaused : Bool) (force : Bool)
  | hard_shutdown (ref : JSVal)
  | clean_reboot (ref : JSVal)
  | get_by_name_label (label : JSVal)
  | clone (template : JSVal) (name : JSVal)
  | set_memory_limits (ref staticMin staticMax dynamicMin dynamicMax : JSVal)
  | set_VCPUs_max (ref : JSVal) (value : JSVal)
  | set_VCPUs_at_startup (ref : JSVal) (value : JSVal)
  | get_by_uuid (uuid : JSVal)
  | destroy (ref : JSVal)
  deriving DecidableEq

/-- The calls that change the remote system. -/
def Call.isMutating : Call → Bool
  | .start _ _ _ => true
  | .hard_shutdown _ => true
  | .clean_reboot _ => true
  | .clone _ _ => true
  | .set_memory_limits _ _ _ _ _ => true
  | .set_VCPUs_max _ _ => true
  | .set_VCPUs_at_startup _ _ => true
  | .destroy _ => true
  | _ => false

/-- The remote system: what `XenAPI.connect` and every later call answer, given the calls
made so far. -/
structure Remote where
  connect : List Call → ServerConfig → Except JSError SessionRef
  respond : List Call → Call → Except JSError JSVal

/-- Console streams. -/
inductive Level where
  | log
  | error
  deriving DecidableEq

/-- A piece of a console line: literal text or an interpolated value. -/
inductive Frag where
  | text (s : String)
  | value (v : JSVal)
  deriving DecidableEq

/-- One call of `console.log` or `console.error`. -/
structure LogLine where
  level : Level
  parts : List Frag
  deriving DecidableEq

/-- The state threaded through the module's functions. -/
structure State where
  xapiConnection : SessionRef
  trace : List Call
  console : List LogLine
  deriving DecidableEq

/-- The state when the module has just been loaded. -/
def State.initial : State :=
  { xapiConnection := .undefined, trace := [], console := [] }

/-- A computation that returns a value or throws, and updates the state either way. -/
def Op (α : Type) : Type := State → Except JSError α × State

namespace Op

/-- Return a value. -/
def ret {α : Type} (a : α) : Op α := fun s => (.ok a, s)

/-- Throw an error. -/
def throwErr {α : Type} (e : JSError) : Op α := fun s => (.error e, s)

/-- Sequencing: an error of the first step skips the rest. -/
def andThen {α β : Type} (m : Op α) (f : α → Op β) : Op β := fun s =>
  match m s with
  | (.ok a, s1) => f a s1
  | (.error e, s1) => (.error e, s1)

instance : Monad Op where
  pure := ret
  bind := andThen

/-- Use the result of a pure step that may throw. -/
def liftE {α : Type} (x : Except JSError α) : Op α := fun s => (x, s)

/-- The statement `try body catch (error) handler`. -/
def tryCatch {α : Type} (body : Op α) (handler : JSError → Op α) : Op α := fun s =>
  match body s with
  | (.ok a, s1) => (.ok a, s1)
  | (.error e, s1) => handler e s1

/-- The clause `finally`: the finaliser runs on both paths; the outcome of the body stands
unless the finaliser itself throws. -/
def tryFinally {α : Type} (body : Op α) (finalizer : Op Unit) : Op α := fun s =>
  match body s with
  | (res, s1) =>
    match finalizer s1 with
    | (.ok _, s2) => (res, s2)
    | (.error e, s2) => (.error e, s2)

end Op

/-- Write one console line. -/
def console (level : Level) (parts : List Frag) : Op Unit := fun s =>
  (.ok (), { s with console := s.console ++ [{ level := level, parts := parts }] })

/-- The remote answers a call, which is recorded. -/
def call (r : Remote) (c : Call) : Op JSVal := fun s =>
  (r.respond s.trace c, { s with trace := s.trace ++ [c] })

/-- The runtime error of calling a method of the client on a value that is not a connection
object (a property of `undefined` is read, or what is called is not a function). The text
depends on the value and the method; the one of the most common case is used. -/
def notAClient : JSError :=
  .other "TypeError" "Cannot read properties of undefined" none

/-- Evaluating the callee `xapi.….method` of a call, which precedes the evaluation of the
arguments: it throws unless `xapi` is a connection object. -/
def resolveMethod (xapi : SessionRef) : Except JSError Unit :=
  match xapi with
  | .conn _ => .ok ()
  | .value _ => .error notAClient

/-- An awaited method call `xapi.….method(args)`: on a connection object the call goes to the
remote; on any other value it throws before anything is sent. -/
def apiCall (r : Remote) (xapi : SessionRef) (c : Call) : Op JSVal :=
  match xapi with
  | .conn _ => call r c
  | .value _ => Op.throwErr notAClient

/-- A method call `xapi.….method(args)` whose promise is dropped: on a connection object
it is recorded and its outcome is not observed. -/
def apiCallDropped (xapi : SessionRef) (c : Call) : Op Unit :=
  match xapi with
  | .conn _ => fun s => (.ok (), { s with trace := s.trace ++ [c] })
  | .value _ => Op.throwErr notAClient

/-- The clause `catch (error) { console.error(label, error.message); throw error; }` of the
gateway operations. -/
def logAndRethrow {α : Type} (label : List Frag) (error : JSError) : Op α := do
  let message ← Op.liftE error.message
  console .error (label ++ [.value message])
  Op.throwErr error

/-! ## Session manager (`XenServer.mjs`) -/

/-- The array `requiredFields`. -/
def requiredFields : List String := ["host", "username", "password"]

/-- The read `config[field]`. -/
def ServerConfig.get (config : ServerConfig) (field : String) : Option String :=
  if field = "host" then config.host
  else if field = "username" then config.username
  else if field = "password" then config.password
  else none

/-- Truthiness of `config[field]`: present and not the empty string. -/
def fieldTruthy : Option String → Bool
  | none => false
  | some s => s != ""

/-- The loop of `validateServerConfig` over the remaining fields. -/
def validateFields (config : ServerConfig) : List String → Except JSError Unit
  | [] => .ok ()
  | field :: rest =>
    if !fieldTruthy (config.get field) then
      .error (.xenServerError ("Missing required field: " ++ field) "ConfigError")
    else validateFields config rest

/-- The function `validateServerConfig(config)`. -/
def validateServerConfig (config : ServerConfig) : Except JSError Unit :=
  validateFields config requiredFields

/-- The function `handleConnectionError(error)`: it writes a diagnostic; reading
`error.code` or calling `error.message.includes` may throw. -/
def handleConnectionError (error : JSError) : Op Unit :=
  if error.isXenServerError then do
    let message ← Op.liftE error.message
    console .error [.text "Configuration error: ", .value message]
  else do
    let code ← Op.liftE error.code
    if strictEqString code "ECONNREFUSED" then
      console .error [.text "Connection refused. Please check the host and network."]
    else do
      let message ← Op.liftE error.message
      let isAuth ← Op.liftE (messageIncludes message "authentication")
      if isAuth then
        console .error
          [.text "Authentication failed. Please check your username and password."]
      else do
        let message ← Op.liftE error.message
        console .error [.text "Failed to connect to XenServer:", .value message]

/-- The awaited call `XenAPI.connect(SERVER_CONFIG)`. -/
def xenApiConnect (r : Remote) (config : ServerConfig) : Op SessionRef := fun s =>
  (r.connect s.trace config, { s with trace := s.trace ++ [.connect config] })

/-- The function `connectToXenServer()`, with `SERVER_CONFIG` as a parameter. -/
def connectToXenServer (r : Remote) (config : ServerConfig) : Op SessionRef :=
  Op.tryCatch
    (do
      Op.liftE (validateServerConfig config)
      let x ← xenApiConnect r config
      (fun s => (.ok (), { s with xapiConnection := x }))
      console .log [.text "Successfully connected to XenServer"]
      pure x)
    (fun error => do
      handleConnectionError error
      let message ← Op.liftE error.message
      Op.throwErr
        (.xenServerError ("Connection failed: " ++ toJSString message) "ConnectionError"))

/-- The call `xapiConnection.disconnect()`: on a connection object the remote answers; any
other truthy value has no such method. -/
def callDisconnect (r : Remote) (x : SessionRef) : Op JSVal :=
  match x with
  | .conn c => call r (.disconnect c)
  | .value _ => Op.throwErr (notAFunction "xapiConnection.disconnect")

/-- The function `disconnectFromXenServer()`. The `catch` clause reads `error.message`,
which throws when the rejection value is `null` or `undefined`; the `finally` clause runs
in every case. -/
def disconnectFromXenServer (r : Remote) : Op Unit := fun s =>
  if s.xapiConnection.truthy then
    Op.tryFinally
      (Op.tryCatch
        (do
          let _ ← callDisconnect r s.xapiConnection
          console .log [.text "Successfully disconnected from XenServer"])
        (fun error => do
          let message ← Op.liftE error.message
          console .error [.text "Error disconnecting from XenServer:", .value message]))
      (fun s1 => (.ok (), { s1 with xapiConnection := .null }))
      s
  else (.ok (), s)

/-- The function `handleXenServerError(error)`. -/
def handleXenServerError (error : JSError) : Op Unit :=
  match error with
  | .xenServerError m t =>
    console .error [.text "XenServer Error (", .text t, .text "):", .value (.str m)]
  | _ => do
    let message ← Op.liftE error.message
    console .error [.text "An unexpected error occurred:", .value message]

/-- The function `main()`, called once when the module is loaded. -/
def main (r : Remote) (config : ServerConfig) : Op Unit :=
  Op.tryFinally
    (Op.tryCatch
      (do
        let _ ← connectToXenServer r config
        pure ())
      (fun error => handleXenServerError error))
    (disconnectFromXenServer r)

/-! ## Operation gateway (`XenServer.mjs`) -/

/-- The callback of `filter` in `listVMs`: `!vm.is_a_template && !vm.is_control_domain`. -/
def keepVM (vm : JSVal) : Except JSError Bool :=
  match getProp vm "is_a_template" with
  | .error e => .error e
  | .ok t =>
    if truthy t then .ok false
    else
      match getProp vm "is_control_domain" with
      | .error e => .error e
      | .ok c => .ok (!truthy c)

/-- The callback of `map` in `listVMs`: the object literal with `uuid`, `name`,
`power_state` and `memory`. -/
def describeVM (vm : JSVal) : Except JSError JSVal :=
  match getProp vm "uuid", getProp vm "name_label", getProp vm "power_state",
    getProp vm "memory_static_max" with
  | .ok u, .ok n, .ok p, .ok m =>
    .ok (.obj [("uuid", u), ("name", n), ("power_state", p), ("memory", m)])
  | .error e, _, _, _ => .error e
  | _, .error e, _, _ => .error e
  | _, _, .error e, _ => .error e
  | _, _, _, .error e => .error e

/-- The method `Array.prototype.filter` with a callback that may throw. -/
def jsFilter (p : JSVal → Except JSError Bool) : List JSVal → Except JSError (List JSVal)
  | [] => .ok []
  | x :: xs =>
    match p x with
    | .error e => .error e
    | .ok b =>
      match jsFilter p xs with
      | .error e => .error e
      | .ok ys => .ok (if b then x :: ys else ys)

/-- The method `Array.prototype.map` with a callback that may throw. -/
def jsMap (f : JSVal → Except JSError JSVal) : List JSVal → Except JSError (List JSVal)
  | [] => .ok []
  | x :: xs =>
    match f x with
    | .error e => .error e
    | .ok y =>
      match jsMap f xs with
      | .error e => .error e
      | .ok ys => .ok (y :: ys)

/-- The function `listVMs()`. -/
def listVMs (r : Remote) (config : ServerConfig) : Op JSVal :=
  Op.tryFinally
    (Op.tryCatch
      (do
        let xapi ← connectToXenServer r config
        let vms ← apiCall r xapi .get_all_records
        let values ← Op.liftE (objectValues vms)
        let kept ← Op.liftE (jsFilter keepVM values)
        let out ← Op.liftE (jsMap describeVM kept)
        pure (JSVal.arr out))
      (fun error => logAndRethrow [.text "Error listing VMs:"] error))
    (disconnectFromXenServer r)

/-- The function `getVMMetrics(vmUuid)`. -/
def getVMMetrics (r : Remote) (config : ServerConfig) (vmUuid : JSVal) : Op JSVal :=
  Op.tryFinally
    (Op.tryCatch
      (do
        let xapi ← connectToXenServer r config
        let vm ← apiCall r xapi (.get_record vmUuid)
        let metricsRef ← Op.liftE (getProp vm "metrics")
        let metrics ← apiCall r xapi (.metrics_get_record metricsRef)
        let cpu ← Op.liftE (getProp metrics "VCPUs_utilisation")
        let mem ← Op.liftE (getProp metrics "memory_actual")
        pure (JSVal.obj [("cpu_usage", cpu), ("memory_usage", mem)]))
      (fun error =>
        logAndRethrow [.text "Error getting VM metrics for ", .value vmUuid, .text ":"] error))
    (disconnectFromXenServer r)

/-- The function `startVM(vmUuid)`. -/
def startVM (r : Remote) (config : ServerConfig) (vmUuid : JSVal) : Op Unit :=
  Op.tryFinally
    (Op.tryCatch
      (do
        let xapi ← connectToXenServer r config
        let vm ← apiCall r xapi (.get_record vmUuid)
        let powerState ← Op.liftE (getProp vm "power_state")
        if !strictEqString powerState "Running" then do
          let ref ← Op.liftE (getProp vm "$ref")
          let _ ← apiCall r xapi (.start ref false false)
          let name ← Op.liftE (getProp vm "name_label")
          console .log [.text "VM ", .value name, .text " started."]
        else do
          let name ← Op.liftE (getProp vm "name_label")
          console .log [.text "VM ", .value name, .text " is already running."])
      (fun error =>
        logAndRethrow [.text "Error starting VM ", .value vmUuid, .text ":"] error))
    (disconnectFromXenServer r)

/-- The function `stopVM(vmUuid)`. -/
def stopVM (r : Remote) (config : ServerConfig) (vmUuid : JSVal) : Op Unit :=
  Op.tryFinally
    (Op.tryCatch
      (do
        let xapi ← connectToXenServer r config
        let vm ← apiCall r xapi (.get_record vmUuid)
        let powerState ← Op.liftE (getProp vm "power_state")
        if strictEqString powerState "Running" then do
          let ref ← Op.liftE (getProp vm "$ref")
          let _ ← apiCall r xapi (.hard_shutdown ref)
          let name ← Op.liftE (getProp vm "name_label")
          console .log [.text "VM ", .value name, .text " stopped."]
        else do
          let name ← Op.liftE (getProp vm "name_label")
          console .log [.text "VM ", .value name, .text " is not running."])
      (fun error =>
        logAndRethrow [.text "Error stopping VM ", .value vmUuid, .text ":"] error))
    (disconnectFromXenServer r)

/-- The function `rebootVM(vmUuid)`. -/
def rebootVM (r : Remote) (config : ServerConfig) (vmUuid : JSVal) : Op Unit :=
  Op.tryFinally
    (Op.tryCatch
      (do
        let xapi ← connectToXenServer r config
        let vm ← apiCall r xapi (.get_record vmUuid)
        let powerState ← Op.liftE (getProp vm "power_state")
        if strictEqString powerState "Running" then do
          let ref ← Op.liftE (getProp vm "$ref")
          let _ ← apiCall r xapi (.clean_reboot ref)
          let name ← Op.liftE (getProp vm "name_label")
          console .log [.text "VM ", .value name, .text " rebooted."]
        else do
          let name ← Op.liftE (getProp vm "name_label")
          console .log [.text "VM ", .value name, .text " is not running. Cannot reboot."])
      (fun error =>
        logAndRethrow [.text "Error rebooting VM ", .value vmUuid, .text ":"] error))
    (disconnectFromXenServer r)

/-- The function `createVM(vmConfig)`.

In `await xapi.VM.get_by_name_label(vmConfig.template)[0]` the index `[0]` binds tighter
than `await`: the call is made, the element `0` of the promise it returns is read, which
is `undefined`, and that is what is awaited. The promise itself is dropped, so `template`
is `undefined` whatever the remote answers. -/
def createVM (r : Remote) (config : ServerConfig) (vmConfig : JSVal) : Op JSVal :=
  Op.tryFinally
    (Op.tryCatch
      (do
        let xapi ← connectToXenServer r config
        Op.liftE (resolveMethod xapi)
        let label ← Op.liftE (getProp vmConfig "template")
        apiCallDropped xapi (.get_by_name_label label)
        let template := JSVal.undefined
        let name ← Op.liftE (getProp vmConfig "name")
        let newVM ← apiCall r xapi (.clone template name)
        let memory ← Op.liftE (getProp vmConfig "memory")
        let _ ← apiCall r xapi (.set_memory_limits newVM memory memory memory memory)
        let vcpus ← Op.liftE (getProp vmConfig "vcpus")
        let _ ← apiCall r xapi (.set_VCPUs_max newVM vcpus)
        let vcpus ← Op.liftE (getProp vmConfig "vcpus")
        let _ ← apiCall r xapi (.set_VCPUs_at_startup newVM vcpus)
        let start ← Op.liftE (getProp vmConfig "start")
        if truthy start then do
          let _ ← apiCall r xapi (.start newVM false false)
          pure ()
        let name ← Op.liftE (getProp vmConfig "name")
        console .log [.text "VM ", .value name, .text " created successfully."]
        pure newVM)
      (fun error => logAndRethrow [.text "Error creating VM:"] error))
    (disconnectFromXenServer r)

/-- The function `deleteVM(vmUuid)`. -/
def deleteVM (r : Remote) (config : ServerConfig) (vmUuid : JSVal) : Op Unit :=
  Op.tryFinally
    (Op.tryCatch
      (do
        let xapi ← connectToXenServer r config
        let vm ← apiCall r xapi (.get_by_uuid vmUuid)
        let powerState ← Op.liftE (getProp vm "power_state")
        if strictEqString powerState "Running" then do
          let ref ← Op.liftE (getProp vm "$ref")
          let _ ← apiCall r xapi (.hard_shutdown ref)
          pure ()
        let ref ← Op.liftE (getProp vm "$ref")
        let _ ← apiCall r xapi (.destroy ref)
        console .log [.text "VM ", .value vmUuid, .text " deleted successfully."])
      (fun error =>
        logAndRethrow [.text "Error deleting VM ", .value vmUuid, .text ":"] error))
    (disconnectFromXenServer r)

/-- The remote calls made between two states. -/
def issued (before after : State) : List Call :=
  after.trace.drop before.trace.length

/-- Equality of outcomes is decidable. -/
instance exceptDecEq {ε α : Type} [DecidableEq ε] [DecidableEq α] : DecidableEq (Except ε α)
  | .ok a, .ok b => if h : a = b then isTrue (by rw [h]) else isFalse (fun e => h (by cases e; rfl))
  | .error a, .error b =>
    if h : a = b then isTrue (by rw [h]) else isFalse (fun e => h (by cases e; rfl))
  | .ok _, .error _ => isFalse (fun e => by cases e)
  | .error _, .ok _ => isFalse (fun e => by cases e)

/-- The outcome of the `try`/`catch` of `disconnectFromXenServer` for an answer of the
remote: an error leaves it only when the `catch` clause cannot read `error.message`. -/
def disconnectOutcome : Except JSError JSVal → Except JSError Unit
  | .ok _ => .ok ()
  | .error e =>
    match e.message with
    | .ok _ => .ok ()
    | .error t => .error t

/-- The console lines that `disconnectFromXenServer` writes for an answer of the remote. -/
def disconnectLines : Except JSError JSVal → List LogLine
  | .ok _ => [{ level := .log, parts := [.text "Successfully disconnected from XenServer"] }]
  | .error e =>
    match e.message with
    | .ok m =>
      [{ level := .error, parts := [.text "Error disconnecting from XenServer:", .value m] }]
    | .error _ => []

/-- The error that leaves the `catch` clause of a gateway operation. -/
def rethrown (e : JSError) : JSError :=
  match e.message with
  | .ok _ => e
  | .error t => t

/-- The console lines written by the `catch` clause of a gateway operation. -/
def rethrowLines (label : List Frag) (e : JSError) : List LogLine :=
  match e.message with
  | .ok m => [{ level := .error, parts := label ++ [.value m] }]
  | .error _ => []

/-! ## Routes (`routes.mjs`) -/

/-- What the routes read of an Express request: the path parameter `req.params.uuid`
(a string, whatever the client sent in that segment), the parsed body `req.body`, and the
`Authorization` header, which only the basic-auth library inspects. -/
structure Request where
  uuid : String
  body : JSVal
  authorization : Option String
  deriving DecidableEq

/-- A response sent with `res.status(code).json(value)`; `res.json(value)` has status 200. -/
structure Response where
  status : Nat
  body : JSVal
  deriving DecidableEq

/-- What one handler of a chain does: call `next()`, send a response, or hand an error to
`next(err)`. -/
inductive Step where
  | next
  | respond (res : Response)
  | fail (err : JSError)
  deriving DecidableEq

/-- A set of characters of a regular expression: a bracket class given by its ranges
(a single character `c` is the range from `c` to `c`), or one literal character. -/
inductive CharClass where
  | ranges (rs : List (Char × Char))
  | lit (c : Char)

/-- Whether a character belongs to a class, by code unit value. -/
def CharClass.test (cls : CharClass) (ch : Char) : Bool :=
  match cls with
  | .ranges rs => rs.any (fun r => r.1.toNat ≤ ch.toNat && ch.toNat ≤ r.2.toNat)
  | .lit c => ch == c

/-- The term `cls{count}` of a regular expression (`count` is 1 without a quantifier). -/
structure Piece where
  cls : CharClass
  count : Nat

/-- Match exactly `n` characters of a class at the front of the input; the rest is returned. -/
def matchRepeat (cls : CharClass) : Nat → List Char → Option (List Char)
  | 0, cs => some cs
  | _ + 1, [] => none
  | n + 1, c :: cs => if cls.test c then matchRepeat cls n cs else none

/-- Match a sequence of terms at the front of the input; the rest is returned. -/
def matchPieces : List Piece → List Char → Option (List Char)
  | [], cs => some cs
  | p :: ps, cs =>
    match matchRepeat p.cls p.count cs with
    | none => none
    | some rest => matchPieces ps rest

/-- The method `test` of a pattern `^ … $` without flags: the whole input must match. -/
def regexTest (pieces : List Piece) (input : String) : Bool :=
  matchPieces pieces input.toList == some []

/-- The class `[0-9a-fA-F]`. -/
def hexClass : CharClass := .ranges [('0', '9'), ('a', 'f'), ('A', 'F')]

/-- The constant `uuidRegex`:
`/^[0-9a-fA-F]{8}-[0-9a-fA-F]{4}-[1-5][0-9a-fA-F]{3}-[89abAB][0-9a-fA-F]{3}-[0-9a-fA-F]{12}$/`. -/
def uuidRegex : List Piece :=
  [ { cls := hexClass, count := 8 }, { cls := .lit '-', count := 1 },
    { cls := hexClass, count := 4 }, { cls := .lit '-', count := 1 },
    { cls := .ranges [('1', '5')], count := 1 }, { cls := hexClass, count := 3 },
    { cls := .lit '-', count := 1 },
    { cls := .ranges [('8', '8'), ('9', '9'), ('a', 'a'), ('b', 'b'), ('A', 'A'), ('B', 'B')],
      count := 1 },
    { cls := hexClass, count := 3 }, { cls := .lit '-', count := 1 },
    { cls := hexClass, count := 12 } ]

/-- The middleware `validateUUID`. -/
def validateUUID (req : Request) : Step :=
  if !regexTest uuidRegex req.uuid then
    .respond { status := 400, body := .obj [("error", .str "Invalid UUID format")] }
  else .next

/-- The middleware `auth`, built by the library `express-basic-auth`: `credentialsOk` is the
library's decision on the request's credentials against the configured users; a rejected
request is answered with status 401 and an empty body, an accepted one goes on. -/
def auth (credentialsOk : Request → Bool) (req : Request) : Step :=
  if credentialsOk req then .next
  else .respond { status := 401, body := .str "" }

/-- The wrapper `asyncHandler(fn)`: a rejection of `fn` is handed to `next`. -/
def asyncHandler (fn : Request → Op Response) (req : Request) (s : State) : Step × State :=
  match fn req s with
  | (.ok res, s1) => (.respond res, s1)
  | (.error e, s1) => (.fail e, s1)

/-- Reading one name of a destructuring pattern `const { key } = v`. -/
def destructure (v : JSVal) (key : String) : Except JSError JSVal :=
  match v with
  | .undefined =>
    .error (.other "TypeError" ("Cannot destructure property " ++ key ++ " of undefined") none)
  | .null => .error (.other "TypeError" ("Cannot destructure property " ++ key ++ " of null") none)
  | _ => getProp v key

/-- The handler of `GET /vms`. -/
def listVMsHandler (r : Remote) (config : ServerConfig) (_req : Request) : Op Response := do
  let vms ← listVMs r config
  pure { status := 200, body := vms }

/-- The handler of `GET /vms/:uuid/metrics`. -/
def getVMMetricsHandler (r : Remote) (config : ServerConfig) (req : Request) : Op Response := do
  let metrics ← getVMMetrics r config (.str req.uuid)
  pure { status := 200, body := metrics }

/-- The handler of `POST /vms/:uuid/start`. -/
def startVMHandler (r : Remote) (config : ServerConfig) (req : Request) : Op Response := do
  startVM r config (.str req.uuid)
  pure { status := 200, body := .obj [("message", .str "VM started")] }

/-- The handler of `POST /vms/:uuid/stop`. -/
def stopVMHandler (r : Remote) (config : ServerConfig) (req : Request) : Op Response := do
  stopVM r config (.str req.uuid)
  pure { status := 200, body := .obj [("message", .str "VM stopped")] }

/-- The handler of `POST /vms/:uuid/reboot`. -/
def rebootVMHandler (r : Remote) (config : ServerConfig) (req : Request) : Op Response := do
  rebootVM r config (.str req.uuid)
  pure { status := 200, body := .obj [("message", .str "VM rebooted")] }

/-- The handler of `POST /vms`. It calls `createVM(name, template, memory, vcpus)`; `createVM`
declares the single parameter `vmConfig`, which is therefore bound to `name`, and the three
other arguments are ignored. -/
def createVMHandler (r : Remote) (config : ServerConfig) (req : Request) : Op Response := do
  let name ← Op.liftE (destructure req.body "name")
  let template ← Op.liftE (destructure req.body "template")
  let memory ← Op.liftE (destructure req.body "memory")
  let vcpus ← Op.liftE (destructure req.body "vcpus")
  if !truthy name || !truthy template || !truthy memory || !truthy vcpus then
    pure { status := 400, body := .obj [("error", .str "Missing required parameters")] }
  else do
    let newVM ← createVM r config name
    pure { status := 201, body := newVM }

/-- The handler of `DELETE /vms/:uuid`. -/
def deleteVMHandler (r : Remote) (config : ServerConfig) (req : Request) : Op Response := do
  deleteVM r config (.str req.uuid)
  pure { status := 200, body := .obj [("message", .str "VM deleted")] }

/-- The handlers that the router chains. -/
inductive Handler where
  | auth
  | validateUUID
  | listVMs
  | getVMMetrics
  | startVM
  | stopVM
  | rebootVM
  | createVM
  | deleteVM
  deriving DecidableEq

/-- HTTP methods of the routes. -/
inductive Method where
  | GET
  | POST
  | DELETE
  deriving DecidableEq

/-- One `router.METHOD(path, ...handlers)` line. -/
structure Route where
  method : Method
  path : String
  chain : List Handler
  deriving DecidableEq

/-- The routes of `routes.mjs`, in source order. -/
def routes : List Route :=
  [ { method := .GET, path := "/vms", chain := [.listVMs] },
    { method := .GET, path := "/vms/:uuid/metrics", chain := [.validateUUID, .getVMMetrics] },
    { method := .POST, path := "/vms/:uuid/start", chain := [.auth, .validateUUID, .startVM] },
    { method := .POST, path := "/vms/:uuid/stop", chain := [.auth, .validateUUID, .stopVM] },
    { method := .POST, path := "/vms/:uuid/reboot", chain := [.auth, .validateUUID, .rebootVM] },
    { method := .POST, path := "/vms", chain := [.auth, .createVM] },
    { method := .DELETE, path := "/vms/:uuid", chain := [.auth, .validateUUID, .deleteVM] } ]

/-- What the router depends on: the remote system, the server configuration and the
decision of the basic-auth library. -/
structure Env where
  remote : Remote
  config : ServerConfig
  credentialsOk : Request → Bool

/-- Run one handler. -/
def runHandler (env : Env) (h : Handler) (req : Request) (s : State) : Step × State :=
  match h with
  | .auth => (auth env.credentialsOk req, s)
  | .validateUUID => (validateUUID req, s)
  | .listVMs => asyncHandler (listVMsHandler env.remote env.config) req s
  | .getVMMetrics => asyncHandler (getVMMetricsHandler env.remote env.config) req s
  | .startVM => asyncHandler (startVMHandler env.remote env.config) req s
  | .stopVM => asyncHandler (stopVMHandler env.remote env.config) req s
  | .rebootVM => asyncHandler (rebootVMHandler env.remote env.config) req s
  | .createVM => asyncHandler (createVMHandler env.remote env.config) req s
  | .deleteVM => asyncHandler (deleteVMHandler env.remote env.config) req s

/-- The result of dispatching a request to a chain: the last step taken, the handlers that
ran, in order, and the final state. -/
structure Dispatch where
  step : Step
  ran : List Handler
  state : State
  deriving DecidableEq

/-- Express runs the handlers of a chain in order; each later handler runs only if the one
before it called `next()`. -/
def runChain (env : Env) : List Handler → Request → State → Dispatch
  | [], _, s => { step := .next, ran := [], state := s }
  | h :: rest, req, s =>
    match runHandler env h req s with
    | (.next, s1) =>
      let d := runChain env rest req s1
      { d with ran := h :: d.ran }
    | (step, s1) => { step := step, ran := [h], state := s1 }

/-- The chain registered for a method and path (empty if there is none). -/
def routeFor (method : Method) (path : String) : List Handler :=
  ((routes.find? (fun rt => rt.method = method ∧ rt.path = path)).map Route.chain).getD []

/-- The handlers that call into the operation gateway. -/
def Handler.isGateway : Handler → Bool
  | .auth => false
  | .validateUUID => false
  | _ => true

/-! ## Start-up (`index.mjs`) -/

/-- The characters that `parseInt` skips at the front of its input (`StrWhiteSpaceChar`:
white space and line terminators). -/
def isStrWhiteSpaceChar (c : Char) : Bool :=
  c.toNat ∈ [0x09, 0x0A, 0x0B, 0x0C, 0x0D, 0x20, 0xA0, 0x1680, 0x2000, 0x2001, 0x2002, 0x2003,
    0x2004, 0x2005, 0x2006, 0x2007, 0x2008, 0x2009, 0x200A, 0x2028, 0x2029, 0x202F, 0x205F,
    0x3000, 0xFEFF]

/-- A digit of radix 10. -/
def isDecimalDigit (c : Char) : Bool :=
  48 ≤ c.toNat && c.toNat ≤ 57

/-- The value of a run of decimal digits, read left to right. -/
def digitsValue (z : List Char) : Nat :=
  z.foldl (fun acc c => acc * 10 + (c.toNat - 48)) 0

/-- The sign step of `parseInt`: a leading `-` gives sign -1 and is removed, a leading `+`
is removed, anything else is left in place. -/
def readSign (s : List Char) : Int × List Char :=
  match s with
  | '-' :: t => (-1, t)
  | '+' :: t => (1, t)
  | _ => (1, s)

/-- The builtin `parseInt(input, 10)` on a string; `none` is `NaN`. Leading white space is
skipped, one sign is read, then the longest run of decimal digits; what follows is ignored.
The result is exact: the code only compares it with 0 and 65535, and every value up to
65535 is represented exactly. -/
def parseInt10 (input : String) : Option Int :=
  let s := input.toList.dropWhile isStrWhiteSpaceChar
  let signed := readSign s
  let z := signed.2.takeWhile isDecimalDigit
  if z.isEmpty then none else some (signed.1 * (digitsValue z : Int))

/-- The first argument of `parseInt` as a string: `process.env.PORT || 3000`, where the
environment value is a string or absent, and the number 3000 is converted to `'3000'`. -/
def PORT (envPort : Option String) : String :=
  match envPort with
  | some s => if s != "" then s else "3000"
  | none => "3000"

/-- The constant `parsedPort`. -/
def parsedPort (envPort : Option String) : Option Int :=
  parseInt10 (PORT envPort)

/-- The outcome of start-up: the port given to `app.listen`, and whether
`'Invalid PORT. Using default port 3000.'` was written. -/
structure Listening where
  port : Int
  warned : Bool
  deriving DecidableEq

/-- The start-up branch of `index.mjs`. -/
def startServer (envPort : Option String) : Listening :=
  match parsedPort envPort with
  | none => { port := 3000, warned := true }
  | some p =>
    if p ≤ 0 ∨ p > 65535 then { port := 3000, warned := true }
    else { port := p, warned := false }

/-! ## Vocabulary of the specification -/

/-- A remote on which every call succeeds. -/
def okRemote : Remote :=
  { connect := fun _ _ => .ok (.conn { id := 1 })
    respond := fun _ _ => .ok (.str "OpaqueRef:1") }

/-- A VM record of the remote system: the four fields that `listVMs` projects, the two flags
it filters on, and any further fields. -/
structure VMRecord where
  uuid : JSVal
  name_label : JSVal
  power_state : JSVal
  memory_static_max : JSVal
  is_a_template : Bool
  is_control_domain : Bool
  others : List (String × JSVal)

/-- The record as the JavaScript object that the client delivers. -/
def VMRecord.toJS (v : VMRecord) : JSVal :=
  .obj ([("uuid", v.uuid), ("name_label", v.name_label), ("power_state", v.power_state),
    ("memory_static_max", v.memory_static_max), ("is_a_template", .bool v.is_a_template),
    ("is_control_domain", .bool v.is_control_domain)] ++ v.others)

/-- The VM descriptor of a record: `uuid`, `name`, `power_state`, `memory`. -/
def VMRecord.descriptor (v : VMRecord) : JSVal :=
  .obj [("uuid", v.uuid), ("name", v.name_label), ("power_state", v.power_state),
    ("memory", v.memory_static_max)]

/-- A remote that accepts connections and fails every later call, the disconnect included. -/
def failingRemote : Remote :=
  { connect := fun _ _ => .ok (.conn { id := 7 })
    respond := fun _ _ => .error (.other "Error" "socket hang up" none) }

/-- The value a request body holds for a name: the property of an object, and `undefined`
for a body that is not an object or has no such property. -/
def fieldOf (body : JSVal) (key : String) : JSVal :=
  match body with
  | .obj props => (props.lookup key).getD .undefined
  | _ => .undefined

/-- A running VM as the remote delivers it to the lifecycle operations. -/
def runningVM : List (String × JSVal) :=
  [("uuid", .str "0b0e0d9c-6f0a-4c3e-9d2b-5a1f3c7e8b21"), ("name_label", .str "web-1"),
    ("power_state", .str "Running"), ("$ref", .str "OpaqueRef:vm-1")]

/-- An inventory with a template, the control domain and two regular VMs. -/
def sampleRecords : List (String × VMRecord) :=
  [ ("OpaqueRef:tpl",
      { uuid := .str "t-0", name_label := .str "Debian template", power_state := .str "Halted",
        memory_static_max := .num 2147483648, is_a_template := true,
        is_control_domain := false, others := [] }),
    ("OpaqueRef:dom0",
      { uuid := .str "d-0", name_label := .str "Control domain", power_state := .str "Running",
        memory_static_max := .num 4294967296, is_a_template := false,
        is_control_domain := true, others := [] }),
    ("OpaqueRef:vm-1",
      { uuid := .str "v-1", name_label := .str "web-1", power_state := .str "Running",
        memory_static_max := .num 1073741824, is_a_template := false,
        is_control_domain := false, others := [("VCPUs_max", .num 2)] }),
    ("OpaqueRef:vm-2",
      { uuid := .str "v-2", name_label := .str "db-1", power_state := .str "Halted",
        memory_static_max := .num 8589934592, is_a_template := false,
        is_control_domain := false, others := [] }) ]

/-- A remote that accepts connections and rejects every later call with `null`. -/
def nullRejectRemote : Remote :=
  { connect := fun _ _ => .ok (.conn { id := 3 })
    respond := fun _ _ => .error (.value .null) }

/-- A remote whose `connect` resolves to `undefined`. -/
def voidConnectRemote : Remote :=
  { connect := fun _ _ => .ok .undefined
    respond := fun _ _ => .ok .null }

/-- A remote that serves `sampleRecords` and `runningVM` and accepts every other call. -/
def inventoryRemote : Remote :=
  { connect := fun _ _ => .ok (.conn { id := 1 })
    respond := fun _ c =>
      match c with
      | .get_all_records => .ok (.obj (sampleRecords.map (fun p => (p.1, p.2.toJS))))
      | .get_record _ => .ok (.obj runningVM)
      | .get_by_uuid _ => .ok (.obj runningVM)
      | _ => .ok .null }

/-- A configuration field that is absent or empty. -/
def Missing (field : Option String) : Prop :=
  field = none ∨ field = some ""

/-- A hexadecimal digit. -/
def IsHex (c : Char) : Prop :=
  c ∈ ['0', '1', '2', '3', '4', '5', '6', '7', '8', '9', 'a', 'b', 'c', 'd', 'e', 'f',
    'A', 'B', 'C', 'D', 'E', 'F']

/-- The identifier format of the specification: hexadecimal groups of lengths 8-4-4-4-12
separated by hyphens, the third group starting with one of `1`..`5` and the fourth with one
of `8`, `9`, `a`, `b`, `A`, `B`. -/
def IsUUID (s : String) : Prop :=
  ∃ g1 g2 g3 g4 g5 : List Char,
    s.toList = g1 ++ '-' :: (g2 ++ '-' :: (g3 ++ '-' :: (g4 ++ '-' :: g5))) ∧
    g1.length = 8 ∧ g2.length = 4 ∧ g3.length = 4 ∧ g4.length = 4 ∧ g5.length = 12 ∧
    (∀ c ∈ g1 ++ g2 ++ g3 ++ g4 ++ g5, IsHex c) ∧
    (∃ c, g3.head? = some c ∧ c ∈ ['1', '2', '3', '4', '5']) ∧
    (∃ c, g4.head? = some c ∧ c ∈ ['8', '9', 'a', 'b', 'A', 'B'])

/-- A string that is the decimal numeral of `n`: a non-empty run of the digits `0`..`9`
whose value in base ten is `n`. -/
def IsDecimalNumeral (s : List Char) (n : Nat) : Prop :=
  s ≠ [] ∧ (∀ c ∈ s, c ∈ ['0', '1', '2', '3', '4', '5', '6', '7', '8', '9']) ∧
    Nat.ofDigits 10 (s.reverse.map (fun c => c.toNat - 48)) = n

/-! ## Running computations -/

theorem andThen_apply {α β : Type} (m : Op α) (f : α → Op β) (s : State) :
    (m >>= f) s = match m s with
      | (.ok a, s1) => f a s1
      | (.error e, s1) => (.error e, s1) := rfl

theorem pure_apply {α : Type} (a : α) (s : State) : (pure a : Op α) s = (.ok a, s) := rfl

theorem ite_run {α : Type} (c : Prop) [Decidable c] (a b : Op α) (s : State) :
    (if c then a else b) s = if c then a s else b s := by
  split_ifs <;> rfl

theorem tryFinally_snd {α : Type} (body : Op α) (fin : Op Unit) (s : State) :
    (Op.tryFinally body fin s).2 = (fin (body s).2).2 := by
  unfold Op.tryFinally
  rcases body s with ⟨res, s1⟩
  simp only
  rcases fin s1 with ⟨_ | _, s2⟩ <;> rfl

/-- The `catch` clause of a gateway operation leaves the session reference and the call
history as they are, and always throws. -/
theorem logAndRethrow_run {α : Type} (label : List Frag) (e : JSError) (x : SessionRef)
    (tr : List Call) (con : List LogLine) :
    (logAndRethrow label e : Op α) { xapiConnection := x, trace := tr, console := con } =
      (.error (rethrown e),
        { xapiConnection := x, trace := tr, console := con ++ rethrowLines label e }) := by
  simp only [logAndRethrow, andThen_apply, Op.liftE, rethrown, rethrowLines]
  cases e.message <;> simp [console, Op.throwErr]

/-! ## Session manager -/

theorem validateFields_error (config : ServerConfig) (fields : List String) (e : JSError)
    (h : validateFields config fields = .error e) :
    ∃ field ∈ fields, fieldTruthy (config.get field) = false ∧
      e = .xenServerError ("Missing required field: " ++ field) "ConfigError" := by
  induction fields with
  | nil => cases h
  | cons f rest ih =>
    simp only [validateFields] at h
    by_cases hf : fieldTruthy (config.get f) = true
    · simp only [hf, Bool.not_true, Bool.false_eq_true, if_false] at h
      obtain ⟨field, hm, h1, h2⟩ := ih h
      exact ⟨field, List.mem_cons_of_mem _ hm, h1, h2⟩
    · simp only [Bool.not_eq_true] at hf
      simp only [hf, Bool.not_false, if_true, Except.error.injEq] at h
      exact ⟨f, List.mem_cons_self _ _, hf, h.symm⟩

theorem validateServerConfig_ok_iff (config : ServerConfig) :
    validateServerConfig config = .ok () ↔
      fieldTruthy config.host = true ∧ fieldTruthy config.username = true ∧
        fieldTruthy config.password = true := by
  simp only [validateServerConfig, requiredFields, validateFields, ServerConfig.get]
  cases h1 : fieldTruthy config.host <;> cases h2 : fieldTruthy config.username <;>
    cases h3 : fieldTruthy config.password <;> simp [h1, h2, h3]

theorem connect_ok (r : Remote) (config : ServerConfig) (s : State) (x : SessionRef)
    (hv : validateServerConfig config = .ok ()) (hc : r.connect s.trace config = .ok x) :
    connectToXenServer r config s =
      (.ok x, { xapiConnection := x, trace := s.trace ++ [.connect config],
                console := s.console ++
                  [{ level := .log, parts := [.text "Successfully connected to XenServer"] }] }) := by
  simp [connectToXenServer, Op.tryCatch, andThen_apply, Op.liftE, hv, xenApiConnect, hc, console,
    pure_apply]

theorem connect_invalid (r : Remote) (config : ServerConfig) (s : State) (field : String)
    (hv : validateServerConfig config =
      .error (.xenServerError ("Missing required field: " ++ field) "ConfigError")) :
    (connectToXenServer r config s).1 =
        .error (.xenServerError ("Connection failed: " ++ ("Missing required field: " ++ field))
          "ConnectionError") ∧
      (connectToXenServer r config s).2.trace = s.trace ∧
      (connectToXenServer r config s).2.xapiConnection = s.xapiConnection := by
  simp [connectToXenServer, Op.tryCatch, andThen_apply, Op.liftE, hv, handleConnectionError,
    JSError.isXenServerError, JSError.message, console, Op.throwErr, toJSString]

theorem handleConnectionError_state (e : JSError) (s : State) :
    (handleConnectionError e s).2.trace = s.trace ∧
      (handleConnectionError e s).2.xapiConnection = s.xapiConnection := by
  unfold handleConnectionError
  cases hx : e.isXenServerError <;> cases hm : e.message <;> cases hcode : e.code <;>
    simp only [andThen_apply, Op.liftE, ite_run, console, Bool.false_eq_true, if_false, if_true,
      and_self]
  · split_ifs <;> simp only [and_self]
  · rename_i m code
    cases hi : messageIncludes m "authentication" with
    | error t => split_ifs <;> simp only [and_self]
    | ok b => cases b <;> split_ifs <;> simp [hm, console]

theorem connect_refused (r : Remote) (config : ServerConfig) (s : State) (e : JSError)
    (hv : validateServerConfig config = .ok ()) (hc : r.connect s.trace config = .error e) :
    (∃ e2, (connectToXenServer r config s).1 = .error e2) ∧
      (connectToXenServer r config s).2.trace = s.trace ++ [.connect config] ∧
      (connectToXenServer r config s).2.xapiConnection = s.xapiConnection := by
  have hs := handleConnectionError_state e
    { xapiConnection := s.xapiConnection, trace := s.trace ++ [.connect config],
      console := s.console }
  simp only [connectToXenServer, Op.tryCatch, andThen_apply, Op.liftE, hv, xenApiConnect, hc]
  rcases hh : handleConnectionError e
    { xapiConnection := s.xapiConnection, trace := s.trace ++ [.connect config],
      console := s.console } with ⟨res, s1⟩
  rw [hh] at hs
  cases res with
  | error t => exact ⟨⟨t, rfl⟩, hs.1, hs.2⟩
  | ok u =>
    simp only
    cases e.message with
    | error t => exact ⟨⟨t, rfl⟩, hs.1, hs.2⟩
    | ok m => exact ⟨⟨_, rfl⟩, hs.1, hs.2⟩

theorem connect_result_session (r : Remote) (config : ServerConfig) (s : State) (x : SessionRef)
    (h : (connectToXenServer r config s).1 = .ok x) :
    (connectToXenServer r config s).2.xapiConnection = x := by
  cases hv : validateServerConfig config with
  | error e =>
    obtain ⟨field, -, -, rfl⟩ := validateFields_error config requiredFields e hv
    rw [(connect_invalid r config s field hv).1] at h; cases h
  | ok u =>
    cases hc : r.connect s.trace config with
    | error e =>
      obtain ⟨⟨e2, h2⟩, -⟩ := connect_refused r config s e hv hc
      rw [h2] at h; cases h
    | ok c2 =>
      rw [connect_ok r config s c2 hv hc] at h ⊢
      simp at h
      simp [h]

theorem disconnect_conn (r : Remote) (c : Conn) (tr : List Call) (con : List LogLine) :
    disconnectFromXenServer r { xapiConnection := .conn c, trace := tr, console := con } =
      (disconnectOutcome (r.respond tr (.disconnect c)),
        { xapiConnection := .null, trace := tr ++ [.disconnect c],
          console := con ++ disconnectLines (r.respond tr (.disconnect c)) }) := by
  simp only [disconnectFromXenServer, SessionRef.truthy, if_true, Op.tryFinally, Op.tryCatch,
    andThen_apply, callDisconnect, call, console, Op.liftE]
  cases hr : r.respond tr (.disconnect c) with
  | ok v => simp [disconnectOutcome, disconnectLines]
  | error e =>
    simp only [disconnectOutcome, disconnectLines]
    cases e.message <;> simp

theorem disconnect_value (r : Remote) (v : JSVal) (tr : List Call) (con : List LogLine) :
    (disconnectFromXenServer r { xapiConnection := .value v, trace := tr, console := con }).1 =
        .ok () ∧
    (disconnectFromXenServer r
        { xapiConnection := .value v, trace := tr, console := con }).2.xapiConnection =
      (if truthy v then .null else .value v) ∧
    (disconnectFromXenServer r
        { xapiConnection := .value v, trace := tr, console := con }).2.trace = tr := by
  cases hv : truthy v <;>
    simp [disconnectFromXenServer, SessionRef.truthy, hv, Op.tryFinally, Op.tryCatch,
      andThen_apply, callDisconnect, console, Op.liftE, Op.throwErr, notAFunction, JSError.message]

theorem strictEqString_iff (v : JSVal) (lit : String) :
    strictEqString v lit = true ↔ v = .str lit := by
  cases v <;> simp [strictEqString]

theorem strictEqString_false (v : JSVal) (lit : String) (h : v ≠ .str lit) :
    strictEqString v lit = false := by
  rw [← Bool.not_eq_true, strictEqString_iff]; exact h

theorem issued_append (s t : State) (cs : List Call) (h : t.trace = s.trace ++ cs) :
    issued s t = cs := by
  simp [issued, h]

/-- The remote calls of `startVM` on a VM record. -/
theorem startVM_trace (r : Remote) (config : ServerConfig) (s : State) (c : Conn)
    (uuid : JSVal) (props : List (String × JSVal))
    (hv : validateServerConfig config = .ok ())
    (hc : r.connect s.trace config = .ok (.conn c))
    (hget : r.respond (s.trace ++ [.connect config]) (.get_record uuid) = .ok (.obj props)) :
    (startVM r config uuid s).2.trace =
      s.trace ++ ([.connect config, .get_record uuid] ++
      (if (props.lookup "power_state").getD .undefined = .str "Running" then
        []
       else [.start ((props.lookup "$ref").getD .undefined) false false]) ++ [.disconnect c]) := by
  generalize hps : (props.lookup "power_state").getD .undefined = ps at *
  by_cases hrun : ps = .str "Running"
  · subst hrun
    simp [startVM, tryFinally_snd, Op.tryCatch, andThen_apply,
      connect_ok r config s (.conn c) hv hc, apiCall, call, hget, Op.liftE, getProp, ite_run,
      console, disconnect_conn, logAndRethrow_run, pure_apply, hps, strictEqString]
  · have h1 := strictEqString_false _ _ hrun
    cases hr : r.respond (s.trace ++ [.connect config, .get_record uuid])
        (.start ((props.lookup "$ref").getD .undefined) false false) <;>
    simp [startVM, tryFinally_snd, Op.tryCatch, andThen_apply,
      connect_ok r config s (.conn c) hv hc, apiCall, call, hget, Op.liftE, getProp, ite_run,
      console, disconnect_conn, logAndRethrow_run, pure_apply, hps, hr, h1, hrun]

/-- The remote calls of `stopVM` on a VM record. -/
theorem stopVM_trace (r : Remote) (config : ServerConfig) (s : State) (c : Conn)
    (uuid : JSVal) (props : List (String × JSVal))
    (hv : validateServerConfig config = .ok ())
    (hc : r.connect s.trace config = .ok (.conn c))
    (hget : r.respond (s.trace ++ [.connect config]) (.get_record uuid) = .ok (.obj props)) :
    (stopVM r config uuid s).2.trace =
      s.trace ++ ([.connect config, .get_record uuid] ++
      (if (props.lookup "power_state").getD .undefined = .str "Running" then
        [.hard_shutdown ((props.lookup "$ref").getD .undefined)]
       else []) ++ [.disconnect c]) := by
  generalize hps : (props.lookup "power_state").getD .undefined = ps at *
  by_cases hrun : ps = .str "Running"
  · subst hrun
    cases hr : r.respond (s.trace ++ [.connect config, .get_record uuid])
        (.hard_shutdown ((props.lookup "$ref").getD .undefined)) <;>
    simp [stopVM, tryFinally_snd, Op.tryCatch, andThen_apply,
      connect_ok r config s (.conn c) hv hc, apiCall, call, hget, Op.liftE, getProp, ite_run,
      console, disconnect_conn, logAndRethrow_run, pure_apply, hps, hr, strictEqString]
  · have h1 := strictEqString_false _ _ hrun
    simp [stopVM, tryFinally_snd, Op.tryCatch, andThen_apply,
      connect_ok r config s (.conn c) hv hc, apiCall, call, hget, Op.liftE, getProp, ite_run,
      console, disconnect_conn, logAndRethrow_run, pure_apply, hps, h1, hrun]

/-- The remote calls of `rebootVM` on a VM record. -/
theorem rebootVM_trace (r : Remote) (config : ServerConfig) (s : State) (c : Conn)
    (uuid : JSVal) (props : List (String × JSVal))
    (hv : validateServerConfig config = .ok ())
    (hc : r.connect s.trace config = .ok (.conn c))
    (hget : r.respond (s.trace ++ [.connect config]) (.get_record uuid) = .ok (.obj props)) :
    (rebootVM r config uuid s).2.trace =
      s.trace ++ ([.connect config, .get_record uuid] ++
      (if (props.lookup "power_state").getD .undefined = .str "Running" then
        [.clean_reboot ((props.lookup "$ref").getD .undefined)]
       else []) ++ [.disconnect c]) := by
  generalize hps : (props.lookup "power_state").getD .undefined = ps at *
  by_cases hrun : ps = .str "Running"
  · subst hrun
    cases hr : r.respond (s.trace ++ [.connect config, .get_record uuid])
        (.clean_reboot ((props.lookup "$ref").getD .undefined)) <;>
    simp [rebootVM, tryFinally_snd, Op.tryCatch, andThen_apply,
      connect_ok r config s (.conn c) hv hc, apiCall, call, hget, Op.liftE, getProp, ite_run,
      console, disconnect_conn, logAndRethrow_run, pure_apply, hps, hr, strictEqString]
  · have h1 := strictEqString_false _ _ hrun
    simp [rebootVM, tryFinally_snd, Op.tryCatch, andThen_apply,
      connect_ok r config s (.conn c) hv hc, apiCall, call, hget, Op.liftE, getProp, ite_run,
      console, disconnect_conn, logAndRethrow_run, pure_apply, hps, h1, hrun]

/-- The remote calls of `deleteVM` on a VM record, when the shutdown succeeds. -/
theorem deleteVM_trace (r : Remote) (config : ServerConfig) (s : State) (c : Conn)
    (uuid : JSVal) (props : List (String × JSVal))
    (hv : validateServerConfig config = .ok ())
    (hc : r.connect s.trace config = .ok (.conn c))
    (hget : r.respond (s.trace ++ [.connect config]) (.get_by_uuid uuid) = .ok (.obj props))
    (hshut : (props.lookup "power_state").getD .undefined = .str "Running" →
      ∃ v, r.respond (s.trace ++ [.connect config, .get_by_uuid uuid])
        (.hard_shutdown ((props.lookup "$ref").getD .undefined)) = .ok v) :
    (deleteVM r config uuid s).2.trace =
      s.trace ++ ([.connect config, .get_by_uuid uuid] ++
      (if (props.lookup "power_state").getD .undefined = .str "Running" then
        [.hard_shutdown ((props.lookup "$ref").getD .undefined),
         .destroy ((props.lookup "$ref").getD .undefined)]
       else [.destroy ((props.lookup "$ref").getD .undefined)]) ++ [.disconnect c]) := by
  generalize hps : (props.lookup "power_state").getD .undefined = ps at *
  by_cases hrun : ps = .str "Running"
  · subst hrun
    obtain ⟨v, hs⟩ := hshut rfl
    cases hr : r.respond (s.trace ++ [.connect config, .get_by_uuid uuid,
        .hard_shutdown ((props.lookup "$ref").getD .undefined)])
        (.destroy ((props.lookup "$ref").getD .undefined)) <;>
    simp [deleteVM, tryFinally_snd, Op.tryCatch, andThen_apply,
      connect_ok r config s (.conn c) hv hc, apiCall, call, hget, Op.liftE, getProp, ite_run,
      console, disconnect_conn, logAndRethrow_run, pure_apply, hps, hr, strictEqString, hs]
  · have h1 := strictEqString_false _ _ hrun
    cases hr : r.respond (s.trace ++ [.connect config, .get_by_uuid uuid])
        (.destroy ((props.lookup "$ref").getD .undefined)) <;>
    simp [deleteVM, tryFinally_snd, Op.tryCatch, andThen_apply,
      connect_ok r config s (.conn c) hv hc, apiCall, call, hget, Op.liftE, getProp, ite_run,
      console, disconnect_conn, logAndRethrow_run, pure_apply, hps, hr, h1, hrun]

theorem missing_iff (field : Option String) : Missing field ↔ fieldTruthy field = false := by
  cases field with
  | none => simp [Missing, fieldTruthy]
  | some v => simp [Missing, fieldTruthy]

/-- Claim C1, amended: for every server configuration in which at least one of `host`,
`username`, `password` is absent or empty, `validateServerConfig` throws an error of type
`ConfigError` naming the first such field, `connectToXenServer` fails with an error whose
type is `ConnectionError` and whose message is `Connection failed: ` followed by the message
of the validation, and `XenAPI.connect` is never called: the call history and the session
reference are unchanged. -/
theorem connectToXenServer_invalid_config (r : Remote) (config : ServerConfig) (s : State)
    (hmiss : Missing config.host ∨ Missing config.username ∨ Missing config.password) :
    ∃ field ∈ requiredFields, Missing (config.get field) ∧
      validateServerConfig config =
        .error (.xenServerError ("Missing required field: " ++ field) "ConfigError") ∧
      (connectToXenServer r config s).1 =
        .error (.xenServerError ("Connection failed: " ++ ("Missing required field: " ++ field))
          "ConnectionError") ∧
      (connectToXenServer r config s).2.trace = s.trace ∧
      (connectToXenServer r config s).2.xapiConnection = s.xapiConnection := by
  cases hv : validateServerConfig config with
  | ok u =>
    have h := (validateServerConfig_ok_iff config).1 hv
    simp only [missing_iff] at hmiss
    rcases hmiss with h1 | h1 | h1
    · rw [h.1] at h1; cases h1
    · rw [h.2.1] at h1; cases h1
    · rw [h.2.2] at h1; cases h1
  | error e =>
    obtain ⟨field, hmem, hfalse, rfl⟩ := validateFields_error config requiredFields e hv
    exact ⟨field, hmem, (missing_iff _).2 hfalse, rfl, connect_invalid r config s field hv⟩

theorem connectToXenServer_invalid_config_witness :
    (Missing (none : Option String) ∨ Missing (some "root") ∨ Missing (some "pw")) ∧
    ∃ field ∈ requiredFields,
      Missing (ServerConfig.get { host := none, username := some "root", password := some "pw" }
        field) ∧
      validateServerConfig { host := none, username := some "root", password := some "pw" } =
        .error (.xenServerError ("Missing required field: " ++ field) "ConfigError") ∧
      (connectToXenServer okRemote { host := none, username := some "root", password := some "pw" }
          State.initial).1 =
        .error (.xenServerError ("Connection failed: " ++ ("Missing required field: " ++ field))
          "ConnectionError") ∧
      (connectToXenServer okRemote { host := none, username := some "root", password := some "pw" }
          State.initial).2.trace = State.initial.trace ∧
      (connectToXenServer okRemote { host := none, username := some "root", password := some "pw" }
          State.initial).2.xapiConnection = State.initial.xapiConnection :=
  ⟨Or.inl (Or.inl rfl),
    connectToXenServer_invalid_config okRemote
      { host := none, username := some "root", password := some "pw" } State.initial
      (Or.inl (Or.inl rfl))⟩

/-- Claim C1 fails as stated: for the configuration without `host`, `validateServerConfig`
throws an error of type `ConfigError` and `XenAPI.connect` is not called, but the error that
`connectToXenServer` fails with has type `ConnectionError`: its `catch` clause, after
`handleConnectionError` has written the diagnostic for a configuration error, wraps every
error, the one of the validation included. -/
theorem connectToXenServer_masks_ConfigError :
    validateServerConfig { host := none, username := some "root", password := some "pw" } =
      .error (.xenServerError "Missing required field: host" "ConfigError") ∧
    (connectToXenServer okRemote { host := none, username := some "root", password := some "pw" }
        State.initial).1 =
      .error (.xenServerError "Connection failed: Missing required field: host" "ConnectionError") ∧
    (connectToXenServer okRemote { host := none, username := some "root", password := some "pw" }
        State.initial).2.trace = [] := by
  decide

theorem message_readable (e : JSError) (h1 : e ≠ .value .null) (h2 : e ≠ .value .undefined) :
    ∃ m, e.message = .ok m := by
  cases e with
  | xenServerError m t => exact ⟨_, rfl⟩
  | other n m c => exact ⟨_, rfl⟩
  | value v =>
    cases v with
    | undefined => exact absurd rfl h2
    | null => exact absurd rfl h1
    | bool b => exact ⟨_, rfl⟩
    | num n => exact ⟨_, rfl⟩
    | str s => exact ⟨_, rfl⟩
    | arr xs => exact ⟨_, rfl⟩
    | obj ps => exact ⟨_, rfl⟩

theorem disconnectOutcome_ok (res : Except JSError JSVal) (h1 : res ≠ .error (.value .null))
    (h2 : res ≠ .error (.value .undefined)) : disconnectOutcome res = .ok () := by
  cases res with
  | ok v => rfl
  | error e =>
    obtain ⟨m, hm⟩ := message_readable e (fun h => h1 (by rw [h])) (fun h => h2 (by rw [h]))
    simp [disconnectOutcome, hm]

theorem null_falsy : truthy JSVal.null = false := rfl

/-- Claim C6, amended: for every module state and every behaviour of the remote,
`disconnectFromXenServer` leaves the session reference falsy: `null` when it held a truthy
value, unchanged otherwise. It returns without an error whenever the disconnect call returns
or rejects with a value other than `null` and `undefined`. After a `connectToXenServer` that
returned a truthy value (a connection object), `disconnectFromXenServer` leaves the session
reference equal to `null`. -/
theorem disconnect_clears_session (r : Remote) (config : ServerConfig) (s : State) :
    ((disconnectFromXenServer r s).2.xapiConnection.truthy = false ∧
      (s.xapiConnection.truthy = true →
        (disconnectFromXenServer r s).2.xapiConnection = .null) ∧
      (s.xapiConnection.truthy = false →
        (disconnectFromXenServer r s).2.xapiConnection = s.xapiConnection)) ∧
    ((∀ c, s.xapiConnection = .conn c →
        r.respond s.trace (.disconnect c) ≠ .error (.value .null) ∧
        r.respond s.trace (.disconnect c) ≠ .error (.value .undefined)) →
      (disconnectFromXenServer r s).1 = .ok ()) ∧
    (∀ x, (connectToXenServer r config s).1 = .ok x → x.truthy = true →
      (disconnectFromXenServer r (connectToXenServer r config s).2).2.xapiConnection =
        .null) := by
  have key : ∀ t : State,
      (disconnectFromXenServer r t).2.xapiConnection.truthy = false ∧
      (t.xapiConnection.truthy = true →
        (disconnectFromXenServer r t).2.xapiConnection = .null) ∧
      (t.xapiConnection.truthy = false →
        (disconnectFromXenServer r t).2.xapiConnection = t.xapiConnection) := by
    rintro ⟨x, tr, con⟩
    cases x with
    | conn c => simp [disconnect_conn, null_falsy, SessionRef.truthy]
    | value v =>
      have h := (disconnect_value r v tr con).2.1
      rw [h]
      cases hv : truthy v <;> simp [hv, SessionRef.truthy, null_falsy]
  refine ⟨key s, ?_, ?_⟩
  · obtain ⟨x, tr, con⟩ := s
    cases x with
    | conn c =>
      intro h
      obtain ⟨h1, h2⟩ := h c rfl
      simp only [disconnect_conn]
      exact disconnectOutcome_ok _ h1 h2
    | value v => intro _; exact (disconnect_value r v tr con).1
  · intro x hx ht
    have hs := connect_result_session r config s x hx
    exact (key _).2.1 (by rw [hs]; exact ht)

theorem disconnect_clears_session_witness :
    (connectToXenServer failingRemote SERVER_CONFIG State.initial).1 = .ok (.conn { id := 7 }) ∧
    SessionRef.truthy (.conn { id := 7 }) = true ∧
    (disconnectFromXenServer failingRemote
        (connectToXenServer failingRemote SERVER_CONFIG State.initial).2).2.xapiConnection = .null :=
  ⟨by decide, rfl,
    (disconnect_clears_session failingRemote SERVER_CONFIG State.initial).2.2 (.conn { id := 7 })
      (by decide) rfl⟩

/-- Claim C6 fails as stated. When the disconnect call rejects with `null`, the `catch`
clause of `disconnectFromXenServer` throws on reading `error.message` and the `TypeError`
leaves the function. When `XenAPI.connect` resolves to `undefined`, `connectToXenServer`
returns it, the guard `if (xapiConnection)` skips the body of `disconnectFromXenServer`, and
the session reference stays `undefined`, which is not `null`. -/
theorem disconnect_can_throw_or_keep_undefined :
    (connectToXenServer nullRejectRemote SERVER_CONFIG State.initial).1 =
      .ok (.conn { id := 3 }) ∧
    (disconnectFromXenServer nullRejectRemote
        (connectToXenServer nullRejectRemote SERVER_CONFIG State.initial).2).1 =
      .error (typeError "null" "message") ∧
    (connectToXenServer voidConnectRemote SERVER_CONFIG State.initial).1 = .ok .undefined ∧
    (disconnectFromXenServer voidConnectRemote
        (connectToXenServer voidConnectRemote SERVER_CONFIG State.initial).2).2.xapiConnection =
      .undefined ∧
    SessionRef.undefined ≠ SessionRef.null := by
  decide

/-! ## Operation gateway -/

theorem keepVM_toJS (v : VMRecord) :
    keepVM v.toJS = .ok (decide (v.is_a_template = false ∧ v.is_control_domain = false)) := by
  cases h1 : v.is_a_template <;> cases h2 : v.is_control_domain <;>
    simp [keepVM, getProp, VMRecord.toJS, List.lookup, truthy, h1, h2]

theorem describeVM_toJS (v : VMRecord) : describeVM v.toJS = .ok v.descriptor := by
  simp [describeVM, getProp, VMRecord.toJS, List.lookup, VMRecord.descriptor]

theorem jsFilter_toJS (vs : List VMRecord) :
    jsFilter keepVM (vs.map VMRecord.toJS) =
      .ok ((vs.filter (fun v => decide (v.is_a_template = false ∧ v.is_control_domain = false))).map
        VMRecord.toJS) := by
  induction vs with
  | nil => rfl
  | cons v vs ih =>
    simp only [List.map_cons, jsFilter, keepVM_toJS, ih, List.filter_cons]
    split_ifs <;> simp_all

theorem jsMap_toJS (vs : List VMRecord) :
    jsMap describeVM (vs.map VMRecord.toJS) = .ok (vs.map VMRecord.descriptor) := by
  induction vs with
  | nil => rfl
  | cons v vs ih => simp [jsMap, describeVM_toJS, ih]

/-- Claim C3: when the session opens and `get_all_records` delivers a collection of VM
records, `listVMs` returns exactly the records whose template flag and control-domain flag
are both false, in the order delivered, each projected to its descriptor
`uuid`, `name := name_label`, `power_state`, `memory := memory_static_max`. This holds for
every remote, state and collection; the one way the list is not what the caller receives is
the `finally` clause throwing, which happens exactly when the disconnect call rejects with
`null` or `undefined`. -/
theorem listVMs_returns_regular_vms (r : Remote) (config : ServerConfig) (s : State) (c : Conn)
    (recs : List (String × VMRecord))
    (hv : validateServerConfig config = .ok ())
    (hc : r.connect s.trace config = .ok (.conn c))
    (hget : r.respond (s.trace ++ [.connect config]) .get_all_records =
      .ok (.obj (recs.map (fun p => (p.1, p.2.toJS))))) :
    (listVMs r config s).1 =
      if r.respond (s.trace ++ [.connect config, .get_all_records]) (.disconnect c) =
          .error (.value .null) then
        .error (typeError "null" "message")
      else if r.respond (s.trace ++ [.connect config, .get_all_records]) (.disconnect c) =
          .error (.value .undefined) then
        .error (typeError "undefined" "message")
      else
        .ok (.arr (((recs.map Prod.snd).filter
          (fun v => decide (v.is_a_template = false ∧ v.is_control_domain = false))).map
            VMRecord.descriptor)) := by
  have hvals : (recs.map (fun p => (p.1, p.2.toJS))).map Prod.snd =
      (recs.map Prod.snd).map VMRecord.toJS := by
    simp [List.map_map, Function.comp_def]
  simp only [listVMs, Op.tryFinally, Op.tryCatch, andThen_apply,
    connect_ok r config s (.conn c) hv hc, apiCall, call, hget, Op.liftE, objectValues, hvals,
    jsFilter_toJS, jsMap_toJS, pure_apply, disconnect_conn, List.append_assoc, List.cons_append,
    List.nil_append]
  by_cases h1 : r.respond (s.trace ++ [.connect config, .get_all_records]) (.disconnect c) =
      .error (.value .null)
  · rw [h1, if_pos rfl]; rfl
  · by_cases h2 : r.respond (s.trace ++ [.connect config, .get_all_records]) (.disconnect c) =
        .error (.value .undefined)
    · rw [h2, if_neg (by decide), if_pos rfl]; rfl
    · rw [if_neg h1, if_neg h2, disconnectOutcome_ok _ h1 h2]

theorem listVMs_returns_regular_vms_witness :
    validateServerConfig SERVER_CONFIG = .ok () ∧
    inventoryRemote.connect State.initial.trace SERVER_CONFIG = .ok (.conn { id := 1 }) ∧
    (listVMs inventoryRemote SERVER_CONFIG State.initial).1 =
      .ok (.arr
        [ .obj [("uuid", .str "v-1"), ("name", .str "web-1"), ("power_state", .str "Running"),
            ("memory", .num 1073741824)],
          .obj [("uuid", .str "v-2"), ("name", .str "db-1"), ("power_state", .str "Halted"),
            ("memory", .num 8589934592)] ]) :=
  ⟨by decide, rfl,
    listVMs_returns_regular_vms inventoryRemote SERVER_CONFIG State.initial { id := 1 }
      sampleRecords (by decide) rfl rfl⟩

/-- Claim C4: for every VM record returned by the lookup, `startVM` issues no mutating call
when `power_state` is `'Running'` and otherwise exactly `start(ref, false, false)`; `stopVM`
issues exactly `hard_shutdown(ref)` when `power_state` is `'Running'` and no mutating call
otherwise; `rebootVM` issues exactly `clean_reboot(ref)` when `power_state` is `'Running'`
and no mutating call otherwise. -/
theorem lifecycle_mutating_calls (r : Remote) (config : ServerConfig) (s : State) (c : Conn)
    (uuid : JSVal) (props : List (String × JSVal))
    (hv : validateServerConfig config = .ok ())
    (hc : r.connect s.trace config = .ok (.conn c))
    (hget : r.respond (s.trace ++ [.connect config]) (.get_record uuid) = .ok (.obj props)) :
    (issued s (startVM r config uuid s).2).filter Call.isMutating =
        (if (props.lookup "power_state").getD .undefined = .str "Running" then []
         else [.start ((props.lookup "$ref").getD .undefined) false false]) ∧
    (issued s (stopVM r config uuid s).2).filter Call.isMutating =
        (if (props.lookup "power_state").getD .undefined = .str "Running" then
          [.hard_shutdown ((props.lookup "$ref").getD .undefined)]
         else []) ∧
    (issued s (rebootVM r config uuid s).2).filter Call.isMutating =
        (if (props.lookup "power_state").getD .undefined = .str "Running" then
          [.clean_reboot ((props.lookup "$ref").getD .undefined)]
         else []) := by
  rw [issued_append _ _ _ (startVM_trace r config s c uuid props hv hc hget),
    issued_append _ _ _ (stopVM_trace r config s c uuid props hv hc hget),
    issued_append _ _ _ (rebootVM_trace r config s c uuid props hv hc hget)]
  refine ⟨?_, ?_, ?_⟩ <;> split_ifs <;> simp [Call.isMutating]

theorem lifecycle_mutating_calls_witness :
    validateServerConfig SERVER_CONFIG = .ok () ∧
    inventoryRemote.connect State.initial.trace SERVER_CONFIG = .ok (.conn { id := 1 }) ∧
    (issued State.initial
        (startVM inventoryRemote SERVER_CONFIG (.str "v-1") State.initial).2).filter
      Call.isMutating = [] ∧
    (issued State.initial
        (stopVM inventoryRemote SERVER_CONFIG (.str "v-1") State.initial).2).filter
      Call.isMutating = [.hard_shutdown (.str "OpaqueRef:vm-1")] ∧
    (issued State.initial
        (rebootVM inventoryRemote SERVER_CONFIG (.str "v-1") State.initial).2).filter
      Call.isMutating = [.clean_reboot (.str "OpaqueRef:vm-1")] :=
  ⟨by decide, rfl,
    lifecycle_mutating_calls inventoryRemote SERVER_CONFIG State.initial { id := 1 } (.str "v-1")
      runningVM (by decide) rfl rfl⟩

/-- Claim C5: for every VM whose lookup succeeds, the mutating calls of `deleteVM` are
`hard_shutdown(ref)` followed by `destroy(ref)` when the power state is `'Running'` (the
shutdown succeeding), and `destroy(ref)` alone otherwise. -/
theorem deleteVM_mutating_calls (r : Remote) (config : ServerConfig) (s : State) (c : Conn)
    (uuid : JSVal) (props : List (String × JSVal))
    (hv : validateServerConfig config = .ok ())
    (hc : r.connect s.trace config = .ok (.conn c))
    (hget : r.respond (s.trace ++ [.connect config]) (.get_by_uuid uuid) = .ok (.obj props))
    (hshut : (props.lookup "power_state").getD .undefined = .str "Running" →
      ∃ v, r.respond (s.trace ++ [.connect config, .get_by_uuid uuid])
        (.hard_shutdown ((props.lookup "$ref").getD .undefined)) = .ok v) :
    (issued s (deleteVM r config uuid s).2).filter Call.isMutating =
      (if (props.lookup "power_state").getD .undefined = .str "Running" then
        [.hard_shutdown ((props.lookup "$ref").getD .undefined),
         .destroy ((props.lookup "$ref").getD .undefined)]
       else [.destroy ((props.lookup "$ref").getD .undefined)]) := by
  rw [issued_append _ _ _ (deleteVM_trace r config s c uuid props hv hc hget hshut)]
  split_ifs <;> simp [Call.isMutating]

theorem deleteVM_mutating_calls_witness :
    validateServerConfig SERVER_CONFIG = .ok () ∧
    inventoryRemote.connect State.initial.trace SERVER_CONFIG = .ok (.conn { id := 1 }) ∧
    (issued State.initial
        (deleteVM inventoryRemote SERVER_CONFIG (.str "v-1") State.initial).2).filter
      Call.isMutating =
        [.hard_shutdown (.str "OpaqueRef:vm-1"), .destroy (.str "OpaqueRef:vm-1")] :=
  ⟨by decide, rfl,
    deleteVM_mutating_calls inventoryRemote SERVER_CONFIG State.initial { id := 1 } (.str "v-1")
      runningVM (by decide) rfl rfl (fun _ => ⟨.null, rfl⟩)⟩

/-! ## Routes -/

/-- Claim C2, evaluated at the body `name: 'vm1', template: 'tpl', memory: 1024, vcpus: 2`
on a remote where every call succeeds: the response is 201 with the reference of the clone,
but the template is looked up by `undefined`, the clone is made from `undefined` under the
name `undefined`, and the memory and VCPU setters receive `undefined`. The handler passes
`name` where `createVM` expects the configuration object, so every field `createVM` reads
is a property of the string `'vm1'`; and the element `0` is taken of the promise of
`get_by_name_label`, not of its result. -/
theorem createVM_route_ignores_request :
    runChain { remote := okRemote, config := SERVER_CONFIG, credentialsOk := fun _ => true }
        (routeFor .POST "/vms")
        { uuid := "", authorization := some "Basic YWRtaW46cHc=",
          body := .obj [("name", .str "vm1"), ("template", .str "tpl"), ("memory", .num 1024),
            ("vcpus", .num 2)] }
        State.initial =
      { step := .respond { status := 201, body := .str "OpaqueRef:1" },
        ran := [.auth, .createVM],
        state :=
          { xapiConnection := .null,
            trace := [.connect SERVER_CONFIG, .get_by_name_label .undefined,
              .clone .undefined .undefined,
              .set_memory_limits (.str "OpaqueRef:1") .undefined .undefined .undefined .undefined,
              .set_VCPUs_max (.str "OpaqueRef:1") .undefined,
              .set_VCPUs_at_startup (.str "OpaqueRef:1") .undefined,
              .disconnect { id := 1 }],
            console :=
              [{ level := .log, parts := [.text "Successfully connected to XenServer"] },
               { level := .log,
                 parts := [.text "VM ", .value .undefined, .text " created successfully."] },
               { level := .log, parts := [.text "Successfully disconnected from XenServer"] }] } } := by
  decide

theorem destructure_eq (body : JSVal) (key : String) (h1 : body ≠ .undefined) (h2 : body ≠ .null) :
    destructure body key = .ok (fieldOf body key) := by
  cases body <;> simp_all [destructure, getProp, fieldOf]

/-- Claim C8, amended: for every request to `POST /vms` that passes the basic-auth check
and whose body holds a falsy value (or none) for at least one of `name`, `template`, `memory`,
`vcpus`, the state is unchanged: `createVM` is not called, no session is opened and no
remote call is made; and when the parsed body is present (neither `undefined` nor `null`) the
response is 400 with `error: 'Missing required parameters'`. -/
theorem createVM_route_rejects_missing_fields (env : Env) (req : Request) (s : State)
    (hauth : env.credentialsOk req = true)
    (hmiss : ∃ key ∈ ["name", "template", "memory", "vcpus"],
      truthy (fieldOf req.body key) = false) :
    (runChain env (routeFor .POST "/vms") req s).ran = [.auth, .createVM] ∧
    (runChain env (routeFor .POST "/vms") req s).state = s ∧
    (req.body ≠ .undefined → req.body ≠ .null →
      (runChain env (routeFor .POST "/vms") req s).step =
        .respond
          { status := 400, body := .obj [("error", .str "Missing required parameters")] }) := by
  have hroute : routeFor .POST "/vms" = [.auth, .createVM] := by decide
  have hcond : (!truthy (fieldOf req.body "name") || !truthy (fieldOf req.body "template") ||
      !truthy (fieldOf req.body "memory") || !truthy (fieldOf req.body "vcpus")) = true := by
    obtain ⟨key, hk, hf⟩ := hmiss
    simp only [List.mem_cons, List.mem_singleton, List.not_mem_nil, or_false] at hk
    rcases hk with rfl | rfl | rfl | rfl <;> simp [hf]
  by_cases h1 : req.body = .undefined
  · simp [hroute, runChain, runHandler, auth, hauth, asyncHandler, createVMHandler,
      andThen_apply, Op.liftE, h1, destructure]
  · by_cases h2 : req.body = .null
    · simp [hroute, runChain, runHandler, auth, hauth, asyncHandler, createVMHandler,
        andThen_apply, Op.liftE, h2, destructure]
    · simp only [hroute, runChain, runHandler, auth, hauth, if_true, asyncHandler,
        createVMHandler, andThen_apply, Op.liftE, destructure_eq _ _ h1 h2, hcond, pure_apply]
      simp

theorem createVM_route_rejects_missing_fields_witness :
    (∃ key ∈ ["name", "template", "memory", "vcpus"],
      truthy (fieldOf (.obj [("name", .str "vm1"), ("template", .str "tpl"),
        ("memory", .num 0), ("vcpus", .num 2)]) key) = false) ∧
    (runChain { remote := okRemote, config := SERVER_CONFIG, credentialsOk := fun _ => true }
        (routeFor .POST "/vms")
        { uuid := "", authorization := some "Basic YWRtaW46cHc=",
          body := .obj [("name", .str "vm1"), ("template", .str "tpl"), ("memory", .num 0),
            ("vcpus", .num 2)] }
        State.initial).state = State.initial ∧
    (runChain { remote := okRemote, config := SERVER_CONFIG, credentialsOk := fun _ => true }
        (routeFor .POST "/vms")
        { uuid := "", authorization := some "Basic YWRtaW46cHc=",
          body := .obj [("name", .str "vm1"), ("template", .str "tpl"), ("memory", .num 0),
            ("vcpus", .num 2)] }
        State.initial).step =
      .respond { status := 400, body := .obj [("error", .str "Missing required parameters")] } :=
  have h := createVM_route_rejects_missing_fields
    { remote := okRemote, config := SERVER_CONFIG, credentialsOk := fun _ => true }
    { uuid := "", authorization := some "Basic YWRtaW46cHc=",
      body := .obj [("name", .str "vm1"), ("template", .str "tpl"), ("memory", .num 0),
        ("vcpus", .num 2)] }
    State.initial rfl ⟨"memory", by decide, by decide⟩
  ⟨⟨"memory", by decide, by decide⟩, h.2.1, h.2.2 (by decide) (by decide)⟩

/-- Claim C8 fails as stated: for an authenticated request without a parsed body
(`req.body` is `undefined`), which holds none of the four fields, the destructuring of
`req.body` throws and the error is handed to `next`; no 400 response is sent. -/
theorem createVM_route_without_body :
    (∃ key ∈ ["name", "template", "memory", "vcpus"],
      truthy (fieldOf .undefined key) = false) ∧
    runChain { remote := okRemote, config := SERVER_CONFIG, credentialsOk := fun _ => true }
        (routeFor .POST "/vms")
        { uuid := "", authorization := some "Basic YWRtaW46cHc=", body := .undefined }
        State.initial =
      { step := .fail
          (.other "TypeError" "Cannot destructure property name of undefined" none),
        ran := [.auth, .createVM], state := State.initial } :=
  ⟨⟨"name", by decide, by decide⟩, by decide⟩

/-- Claim C9: the routes that are not `GET` are the five mutating routes; in each of them
the basic-auth middleware is the first handler, so a request that it rejects is answered
with 401, no other handler runs and the state is unchanged; the two `GET` routes have no
basic-auth middleware. -/
theorem auth_rejection_stops_chain (env : Env) (req : Request) (s : State)
    (hrej : env.credentialsOk req = false) :
    (routes.filter (fun rt => decide (rt.method ≠ .GET))).map (fun rt => (rt.method, rt.path)) =
        [(.POST, "/vms/:uuid/start"), (.POST, "/vms/:uuid/stop"), (.POST, "/vms/:uuid/reboot"),
         (.POST, "/vms"), (.DELETE, "/vms/:uuid")] ∧
    (∀ rt ∈ routes, rt.method ≠ .GET →
      rt.chain.head? = some .auth ∧
      runChain env rt.chain req s =
        { step := .respond { status := 401, body := .str "" }, ran := [.auth], state := s }) ∧
    (∀ rt ∈ routes, rt.method = .GET → Handler.auth ∉ rt.chain) := by
  refine ⟨by decide, ?_, by decide⟩
  intro rt hrt hm
  simp only [routes, List.mem_cons, List.mem_singleton, List.not_mem_nil, or_false] at hrt
  rcases hrt with rfl | rfl | rfl | rfl | rfl | rfl | rfl <;>
    first
    | exact absurd rfl hm
    | simp [runChain, runHandler, auth, hrej]

theorem auth_rejection_stops_chain_witness :
    routeFor .DELETE "/vms/:uuid" = [.auth, .validateUUID, .deleteVM] ∧
    runChain { remote := okRemote, config := SERVER_CONFIG, credentialsOk := fun _ => false }
        (routeFor .DELETE "/vms/:uuid")
        { uuid := "not-a-uuid", body := .undefined, authorization := none } State.initial =
      { step := .respond { status := 401, body := .str "" }, ran := [.auth],
        state := State.initial } :=
  ⟨by decide,
    ((auth_rejection_stops_chain
      { remote := okRemote, config := SERVER_CONFIG, credentialsOk := fun _ => false }
      { uuid := "not-a-uuid", body := .undefined, authorization := none } State.initial rfl).2.1
      { method := .DELETE, path := "/vms/:uuid", chain := [.auth, .validateUUID, .deleteVM] }
      (by decide) (by decide)).2⟩

/-! ## The identifier pattern -/

theorem char_eq_of_toNat (c d : Char) (h : c.toNat = d.toNat) : c = d := by
  apply Char.ext
  apply UInt32.ext
  exact h

theorem char_toNat_injective : Function.Injective Char.toNat :=
  fun c d h => char_eq_of_toNat c d h

theorem mem_chars_iff (c : Char) (l : List Char) : c ∈ l ↔ c.toNat ∈ l.map Char.toNat :=
  (List.mem_map_of_injective char_toNat_injective).symm

/-- Matching `n` characters of a class splits off a group of `n` characters of that class. -/
theorem matchRepeat_some (cls : CharClass) (n : Nat) (cs rest : List Char) :
    matchRepeat cls n cs = some rest ↔
      ∃ g, g.length = n ∧ (∀ c ∈ g, cls.test c = true) ∧ cs = g ++ rest := by
  induction n generalizing cs with
  | zero =>
    simp only [matchRepeat, Option.some.injEq]
    constructor
    · rintro rfl; exact ⟨[], rfl, by simp, rfl⟩
    · rintro ⟨g, hg, -, rfl⟩
      rw [List.length_eq_zero] at hg; subst hg; rfl
  | succ n ih =>
    cases cs with
    | nil =>
      simp only [matchRepeat]
      constructor
      · intro h; cases h
      · rintro ⟨g, hg, -, h⟩
        cases g with
        | nil => simp at hg
        | cons a g => simp at h
    | cons c cs =>
      simp only [matchRepeat]
      constructor
      · intro h
        by_cases hc : cls.test c = true
        · rw [if_pos hc, ih] at h
          obtain ⟨g, hg, hall, rfl⟩ := h
          refine ⟨c :: g, by simp [hg], ?_, rfl⟩
          intro x hx
          rcases List.mem_cons.1 hx with rfl | hx
          · exact hc
          · exact hall x hx
        · rw [if_neg hc] at h; cases h
      · rintro ⟨g, hg, hall, h⟩
        cases g with
        | nil => simp at hg
        | cons a g =>
          simp only [List.cons_append, List.cons.injEq] at h
          obtain ⟨rfl, rfl⟩ := h
          rw [if_pos (hall c (List.mem_cons_self _ _)), ih]
          exact ⟨g, by simpa using hg, fun x hx => hall x (List.mem_cons_of_mem _ hx), rfl⟩

theorem matchRepeat_lit (ch : Char) (cs rest : List Char) :
    matchRepeat (.lit ch) 1 cs = some rest ↔ cs = ch :: rest := by
  cases cs with
  | nil => simp [matchRepeat]
  | cons c cs =>
    simp only [matchRepeat, CharClass.test, beq_iff_eq, List.cons.injEq]
    by_cases h : c = ch
    · simp [h]
    · simp [h]

theorem matchRepeat_one (rs : List (Char × Char)) (cs rest : List Char) :
    matchRepeat (.ranges rs) 1 cs = some rest ↔
      ∃ c, (CharClass.ranges rs).test c = true ∧ cs = c :: rest := by
  generalize CharClass.ranges rs = cls
  cases cs with
  | nil => simp [matchRepeat]
  | cons c cs =>
    simp only [matchRepeat, List.cons.injEq]
    by_cases h : cls.test c = true
    · simp only [h, if_true, Option.some.injEq]
      constructor
      · rintro rfl; exact ⟨c, h, rfl, rfl⟩
      · rintro ⟨d, -, -, h2⟩; exact h2
    · simp only [h, if_false]
      constructor
      · intro h2; cases h2
      · rintro ⟨d, hd, rfl, -⟩; exact absurd hd h

theorem matchPieces_cons (p : Piece) (ps : List Piece) (cs rest : List Char) :
    matchPieces (p :: ps) cs = some rest ↔
      ∃ mid, matchRepeat p.cls p.count cs = some mid ∧ matchPieces ps mid = some rest := by
  simp only [matchPieces]
  cases h : matchRepeat p.cls p.count cs with
  | none => simp
  | some mid => simp

theorem matchPieces_nil (cs rest : List Char) : matchPieces [] cs = some rest ↔ cs = rest := by
  simp [matchPieces]

/-- The class `[0-9a-fA-F]` holds the hexadecimal digits. -/
theorem hexClass_test (c : Char) : hexClass.test c = true ↔ IsHex c := by
  rw [IsHex, mem_chars_iff]
  have a0 : ('0' : Char).toNat = 48 := rfl
  have a9 : ('9' : Char).toNat = 57 := rfl
  have b0 : ('a' : Char).toNat = 97 := rfl
  have b9 : ('f' : Char).toNat = 102 := rfl
  have c0 : ('A' : Char).toNat = 65 := rfl
  have c9 : ('F' : Char).toNat = 70 := rfl
  have hl : (['0', '1', '2', '3', '4', '5', '6', '7', '8', '9', 'a', 'b', 'c', 'd', 'e', 'f',
    'A', 'B', 'C', 'D', 'E', 'F'] : List Char).map Char.toNat =
    [48, 49, 50, 51, 52, 53, 54, 55, 56, 57, 97, 98, 99, 100, 101, 102, 65, 66, 67, 68, 69, 70] :=
    rfl
  rw [hl]
  simp only [hexClass, CharClass.test, List.any_cons, List.any_nil, Bool.or_false,
    Bool.or_eq_true, Bool.and_eq_true, decide_eq_true_eq, List.mem_cons, List.mem_singleton,
    List.not_mem_nil, or_false, a0, a9, b0, b9, c0, c9]
  omega

theorem versionClass_test (c : Char) :
    (CharClass.ranges [('1', '5')]).test c = true ↔ c ∈ ['1', '2', '3', '4', '5'] := by
  rw [mem_chars_iff]
  have a0 : ('1' : Char).toNat = 49 := rfl
  have a9 : ('5' : Char).toNat = 53 := rfl
  have hl : (['1', '2', '3', '4', '5'] : List Char).map Char.toNat = [49, 50, 51, 52, 53] := rfl
  rw [hl]
  simp only [CharClass.test, List.any_cons, List.any_nil, Bool.or_false,
    Bool.and_eq_true, decide_eq_true_eq, List.mem_cons, List.mem_singleton,
    List.not_mem_nil, or_false, a0, a9]
  omega

theorem variantClass_test (c : Char) :
    (CharClass.ranges [('8', '8'), ('9', '9'), ('a', 'a'), ('b', 'b'), ('A', 'A'),
      ('B', 'B')]).test c = true ↔ c ∈ ['8', '9', 'a', 'b', 'A', 'B'] := by
  rw [mem_chars_iff]
  have a0 : ('8' : Char).toNat = 56 := rfl
  have a1 : ('9' : Char).toNat = 57 := rfl
  have a2 : ('a' : Char).toNat = 97 := rfl
  have a3 : ('b' : Char).toNat = 98 := rfl
  have a4 : ('A' : Char).toNat = 65 := rfl
  have a5 : ('B' : Char).toNat = 66 := rfl
  have hl : (['8', '9', 'a', 'b', 'A', 'B'] : List Char).map Char.toNat =
    [56, 57, 97, 98, 65, 66] := rfl
  rw [hl]
  simp only [CharClass.test, List.any_cons, List.any_nil, Bool.or_false, Bool.or_eq_true,
    Bool.and_eq_true, decide_eq_true_eq, List.mem_cons, List.mem_singleton,
    List.not_mem_nil, or_false, a0, a1, a2, a3, a4, a5]
  omega

theorem vhex_implies_hex (c : Char) (h : c ∈ ['1', '2', '3', '4', '5']) : IsHex c := by
  simp only [IsHex, List.mem_cons, List.mem_singleton, List.not_mem_nil, or_false] at h ⊢
  rcases h with rfl | rfl | rfl | rfl | rfl <;> simp

theorem variant_implies_hex (c : Char) (h : c ∈ ['8', '9', 'a', 'b', 'A', 'B']) : IsHex c := by
  simp only [IsHex, List.mem_cons, List.mem_singleton, List.not_mem_nil, or_false] at h ⊢
  rcases h with rfl | rfl | rfl | rfl | rfl | rfl <;> simp

/-- The pattern matches a whole input exactly when the input has the 8-4-4-4-12 shape. -/
theorem uuidRegex_matches_iff (cs : List Char) :
    matchPieces uuidRegex cs = some [] ↔
      ∃ g1 g2 g3 g4 g5 : List Char,
        cs = g1 ++ '-' :: (g2 ++ '-' :: (g3 ++ '-' :: (g4 ++ '-' :: g5))) ∧
        g1.length = 8 ∧ g2.length = 4 ∧ g3.length = 4 ∧ g4.length = 4 ∧ g5.length = 12 ∧
        (∀ c ∈ g1 ++ g2 ++ g3 ++ g4 ++ g5, IsHex c) ∧
        (∃ c, g3.head? = some c ∧ c ∈ ['1', '2', '3', '4', '5']) ∧
        (∃ c, g4.head? = some c ∧ c ∈ ['8', '9', 'a', 'b', 'A', 'B']) := by
  simp only [uuidRegex, matchPieces_cons, matchPieces_nil]
  simp only [matchRepeat_lit, matchRepeat_one]
  simp only [matchRepeat_some, hexClass_test, versionClass_test, variantClass_test]
  constructor
  · rintro ⟨m1, ⟨g1, l1, x1, rfl⟩, m2, rfl, m3, ⟨g2, l2, x2, rfl⟩, m4, rfl, m5, ⟨v, hv, rfl⟩, m6,
      ⟨t3, l3, x3, rfl⟩, m7, rfl, m8, ⟨w, hw, rfl⟩, m9, ⟨t4, l4, x4, rfl⟩, m10, rfl, m11,
      ⟨g5, l5, x5, rfl⟩, rfl⟩
    refine ⟨g1, g2, v :: t3, w :: t4, g5, by simp, l1, l2, by simp [l3], by simp [l4], l5, ?_,
      ⟨v, rfl, hv⟩, ⟨w, rfl, hw⟩⟩
    intro c hc
    simp only [List.mem_append, List.mem_cons] at hc
    rcases hc with (((hc | hc) | (rfl | hc)) | (rfl | hc)) | hc
    · exact x1 c hc
    · exact x2 c hc
    · exact vhex_implies_hex _ hv
    · exact x3 c hc
    · exact variant_implies_hex _ hw
    · exact x4 c hc
    · exact x5 c hc
  · rintro ⟨g1, g2, g3, g4, g5, rfl, l1, l2, l3, l4, l5, hx, ⟨v, hv3, hv⟩, ⟨w, hw4, hw⟩⟩
    cases g3 with
    | nil => simp at l3
    | cons a t3 =>
      cases g4 with
      | nil => simp at l4
      | cons b t4 =>
        simp only [List.head?_cons, Option.some.injEq] at hv3 hw4
        subst hv3 hw4
        replace l3 : t3.length = 3 := by simpa using l3
        replace l4 : t4.length = 3 := by simpa using l4
        have hx1 : ∀ c ∈ g1, IsHex c := fun c hc => hx c (by simp [hc])
        have hx2 : ∀ c ∈ g2, IsHex c := fun c hc => hx c (by simp [hc])
        have hx3 : ∀ c ∈ t3, IsHex c := fun c hc => hx c (by simp [hc])
        have hx4 : ∀ c ∈ t4, IsHex c := fun c hc => hx c (by simp [hc])
        have hx5 : ∀ c ∈ g5, IsHex c := fun c hc => hx c (by simp [hc])
        exact ⟨_, ⟨g1, l1, hx1, rfl⟩, _, rfl, _, ⟨g2, l2, hx2, rfl⟩, _, rfl, _, ⟨a, hv, rfl⟩, _,
          ⟨t3, l3, hx3, rfl⟩, _, rfl, _, ⟨b, hw, rfl⟩, _, ⟨t4, l4, hx4, rfl⟩, _, rfl, _,
          ⟨g5, l5, hx5, by simp⟩, rfl⟩

/-- The method `uuidRegex.test` decides the identifier format of the specification. -/
theorem regexTest_uuidRegex (s : String) : regexTest uuidRegex s = true ↔ IsUUID s := by
  simp only [regexTest, beq_iff_eq, IsUUID]
  exact uuidRegex_matches_iff s.toList

theorem not_a_uuid : ¬ IsUUID "not-a-uuid" := by
  rw [← regexTest_uuidRegex]
  decide

/-- Claim C7: `validateUUID` calls `next()` exactly when the `uuid` parameter has the
identifier format; for every other string it responds 400 with
`error: 'Invalid UUID format'`, and on `GET /vms/:uuid/metrics` the chain stops there:
only `validateUUID` ran and the state is unchanged, so `getVMMetrics` was not invoked. -/
theorem validateUUID_accepts_exactly_uuids (env : Env) (req : Request) (s : State) :
    (validateUUID req = .next ↔ IsUUID req.uuid) ∧
    (¬ IsUUID req.uuid →
      validateUUID req =
        .respond { status := 400, body := .obj [("error", .str "Invalid UUID format")] } ∧
      runChain env (routeFor .GET "/vms/:uuid/metrics") req s =
        { step := .respond { status := 400, body := .obj [("error", .str "Invalid UUID format")] },
          ran := [.validateUUID], state := s }) := by
  have hroute : routeFor .GET "/vms/:uuid/metrics" = [.validateUUID, .getVMMetrics] := by decide
  by_cases h : IsUUID req.uuid
  · have ht := (regexTest_uuidRegex req.uuid).2 h
    simp [validateUUID, ht, h]
  · have ht : regexTest uuidRegex req.uuid = false := by
      rw [← Bool.not_eq_true, regexTest_uuidRegex]; exact h
    simp [validateUUID, ht, h, hroute, runChain, runHandler]

theorem validateUUID_accepts_exactly_uuids_witness :
    ¬ IsUUID "not-a-uuid" ∧
    runChain { remote := okRemote, config := SERVER_CONFIG, credentialsOk := fun _ => true }
        (routeFor .GET "/vms/:uuid/metrics")
        { uuid := "not-a-uuid", body := .undefined, authorization := none } State.initial =
      { step := .respond { status := 400, body := .obj [("error", .str "Invalid UUID format")] },
        ran := [.validateUUID], state := State.initial } :=
  ⟨not_a_uuid,
    ((validateUUID_accepts_exactly_uuids
      { remote := okRemote, config := SERVER_CONFIG, credentialsOk := fun _ => true }
      { uuid := "not-a-uuid", body := .undefined, authorization := none } State.initial).2
      not_a_uuid).2⟩

/-! ## Start-up -/

theorem isDecimalDigit_iff (c : Char) :
    isDecimalDigit c = true ↔ c ∈ ['0', '1', '2', '3', '4', '5', '6', '7', '8', '9'] := by
  rw [mem_chars_iff]
  have hl : (['0', '1', '2', '3', '4', '5', '6', '7', '8', '9'] : List Char).map Char.toNat =
    [48, 49, 50, 51, 52, 53, 54, 55, 56, 57] := rfl
  rw [hl]
  simp only [isDecimalDigit, Bool.and_eq_true, decide_eq_true_eq, List.mem_cons,
    List.mem_singleton, List.not_mem_nil, or_false]
  omega

theorem digit_not_space (c : Char) (h : isDecimalDigit c = true) :
    isStrWhiteSpaceChar c = false := by
  simp only [isDecimalDigit, Bool.and_eq_true, decide_eq_true_eq] at h
  simp only [isStrWhiteSpaceChar, decide_eq_false_iff_not, List.mem_cons, List.mem_singleton,
    List.not_mem_nil, or_false]
  omega

theorem digit_not_sign (c : Char) (h : isDecimalDigit c = true) : c ≠ '-' ∧ c ≠ '+' := by
  constructor <;> rintro rfl <;> revert h <;> decide

theorem digitsValue_append (ds : List Char) (c : Char) :
    digitsValue (ds ++ [c]) = digitsValue ds * 10 + (c.toNat - 48) := by
  simp [digitsValue, List.foldl_append]

/-- The value read left to right is the base-ten value of the digits. -/
theorem digitsValue_eq_ofDigits (ds : List Char) :
    digitsValue ds = Nat.ofDigits 10 (ds.reverse.map (fun c => c.toNat - 48)) := by
  induction ds using List.reverseRecOn with
  | nil => rfl
  | append_singleton ds c ih =>
    rw [digitsValue_append, ih]
    simp [Nat.ofDigits_cons]
    ring

theorem takeWhile_digits (ds rest : List Char) (hds : ∀ c ∈ ds, isDecimalDigit c = true)
    (hrest : ∀ c, rest.head? = some c → isDecimalDigit c = false) :
    (ds ++ rest).takeWhile isDecimalDigit = ds := by
  induction ds with
  | nil =>
    cases rest with
    | nil => rfl
    | cons c rest => simp [List.takeWhile, hrest c rfl]
  | cons d ds ih =>
    rw [List.cons_append, List.takeWhile_cons, hds d (List.mem_cons_self _ _), if_pos rfl,
      ih (fun c hc => hds c (List.mem_cons_of_mem _ hc))]

theorem parseInt10_digit_head (d : Char) (t : List Char) (hd : isDecimalDigit d = true) :
    parseInt10 (String.mk (d :: t)) =
      some ((digitsValue ((d :: t).takeWhile isDecimalDigit) : Nat) : Int) := by
  have h1 := (digit_not_sign d hd).1
  have h2 := (digit_not_sign d hd).2
  have hdrop : (d :: t).dropWhile isStrWhiteSpaceChar = d :: t := by
    rw [List.dropWhile_cons, digit_not_space d hd]; rfl
  have hsign : readSign (d :: t) = (1, d :: t) := by
    unfold readSign
    split
    · rename_i heq; simp only [List.cons.injEq] at heq; exact absurd heq.1 h1
    · rename_i heq; simp only [List.cons.injEq] at heq; exact absurd heq.1 h2
    · rfl
  have hne : ((d :: t).takeWhile isDecimalDigit).isEmpty = false := by
    rw [List.takeWhile_cons, hd]; rfl
  unfold parseInt10
  simp only [String.toList, hdrop, hsign, hne, one_mul]
  rfl

/-- On a decimal numeral followed by anything that does not start with a digit, `parseInt`
returns the value of the numeral. -/
theorem parseInt10_numeral (ds rest : List Char) (n : Nat) (hnum : IsDecimalNumeral ds n)
    (hrest : ∀ c, rest.head? = some c → c ∉ ['0', '1', '2', '3', '4', '5', '6', '7', '8', '9']) :
    parseInt10 (String.mk (ds ++ rest)) = some (n : Int) := by
  obtain ⟨hne, hdig, hval⟩ := hnum
  have hds : ∀ c ∈ ds, isDecimalDigit c = true := fun c hc => (isDecimalDigit_iff c).2 (hdig c hc)
  have hrest2 : ∀ c, rest.head? = some c → isDecimalDigit c = false := by
    intro c hc
    rw [← Bool.not_eq_true, isDecimalDigit_iff]
    exact hrest c hc
  have htw := takeWhile_digits ds rest hds hrest2
  cases ds with
  | nil => exact absurd rfl hne
  | cons d ds =>
    rw [List.cons_append] at htw ⊢
    rw [parseInt10_digit_head d (ds ++ rest) (hds d (List.mem_cons_self _ _)), htw,
      digitsValue_eq_ofDigits, hval]

theorem startServer_in_range (envPort : Option String) :
    1 ≤ (startServer envPort).port ∧ (startServer envPort).port ≤ 65535 := by
  unfold startServer
  cases parsedPort envPort with
  | none => simp
  | some p =>
    by_cases h : p ≤ 0 ∨ p > 65535
    · simp [h]
    · simp only [h, if_false]; omega

theorem startServer_warned_port (envPort : Option String)
    (h : (startServer envPort).warned = true) : (startServer envPort).port = 3000 := by
  revert h
  unfold startServer
  cases parsedPort envPort with
  | none => intro _; rfl
  | some p =>
    by_cases hp : p ≤ 0 ∨ p > 65535
    · simp [hp]
    · simp [hp]

theorem PORT_of_nonempty (s : String) (h : s ≠ "") : PORT (some s) = s := by
  simp [PORT, h]

theorem startServer_warned_iff (envPort : Option String) :
    (startServer envPort).warned = true ↔
      ∃ s, envPort = some s ∧ s ≠ "" ∧
        (parseInt10 s = none ∨ ∃ p, parseInt10 s = some p ∧ (p ≤ 0 ∨ 65535 < p)) := by
  cases envPort with
  | none =>
    constructor
    · intro h; revert h; decide
    · rintro ⟨s, hs, -⟩; cases hs
  | some s =>
    by_cases hs : s = ""
    · subst hs
      constructor
      · intro h; revert h; decide
      · rintro ⟨s, h1, h2, -⟩
        cases h1; exact absurd rfl h2
    · simp only [startServer, parsedPort, PORT_of_nonempty s hs, Option.some.injEq,
        exists_eq_left', hs, ne_eq, not_false_eq_true, true_and]
      cases parseInt10 s with
      | none => simp
      | some p =>
        by_cases hp : p ≤ 0 ∨ p > 65535
        · simp [hp]
        · simp [hp]

theorem no_numeral_8080abc : ¬ ∃ n, IsDecimalNumeral "8080abc".toList n := by
  rintro ⟨n, -, h, -⟩
  exact absurd (h 'a' (by decide)) (by decide)

/-- Claim C10 fails as stated: with `PORT` unset the server listens on 3000 without any
warning, and with `PORT` equal to `8080abc`, which is not an integer, it listens on 8080. -/
theorem startServer_lenient :
    startServer none = { port := 3000, warned := false } ∧
    startServer (some "8080abc") = { port := 8080, warned := false } ∧
    ¬ ∃ n, IsDecimalNumeral "8080abc".toList n :=
  ⟨by decide, by decide, no_numeral_8080abc⟩

/-- Claim C10, amended: the chosen port is always an integer in [1, 65535]; with `PORT` unset
or empty the server listens on 3000 without a warning; when `PORT` is the decimal numeral of
an integer `n` in [1, 65535], alone or followed by text that does not start with a digit, it
listens on `n` without a warning; the warning is written exactly when `PORT` is non-empty and
`parseInt(PORT, 10)` is `NaN` or outside [1, 65535], and then the port is 3000. -/
theorem startServer_port (envPort : Option String) :
    (1 ≤ (startServer envPort).port ∧ (startServer envPort).port ≤ 65535) ∧
    ((envPort = none ∨ envPort = some "") → startServer envPort = { port := 3000, warned := false }) ∧
    (∀ (ds rest : List Char) (n : Nat), envPort = some (String.mk (ds ++ rest)) →
      IsDecimalNumeral ds n →
      (∀ c, rest.head? = some c → c ∉ ['0', '1', '2', '3', '4', '5', '6', '7', '8', '9']) →
      1 ≤ n → n ≤ 65535 → startServer envPort = { port := n, warned := false }) ∧
    ((startServer envPort).warned = true ↔
      ∃ s, envPort = some s ∧ s ≠ "" ∧
        (parseInt10 s = none ∨ ∃ p, parseInt10 s = some p ∧ (p ≤ 0 ∨ 65535 < p))) ∧
    ((startServer envPort).warned = true → (startServer envPort).port = 3000) := by
  refine ⟨startServer_in_range envPort, ?_, ?_, startServer_warned_iff envPort,
    startServer_warned_port envPort⟩
  · rintro (rfl | rfl) <;> decide
  · rintro ds rest n rfl hnum hrest h1 h2
    have hne : String.mk (ds ++ rest) ≠ "" := by
      obtain ⟨hne, -, -⟩ := hnum
      intro h
      have h3 := congrArg String.data h
      simp at h3
      exact hne h3.1
    have hp := parseInt10_numeral ds rest n hnum hrest
    simp only [startServer, parsedPort, PORT_of_nonempty _ hne, hp]
    have hr : ¬ ((n : Int) ≤ 0 ∨ (n : Int) > 65535) := by omega
    rw [if_neg hr]

theorem startServer_port_witness :
    IsDecimalNumeral "8080".toList 8080 ∧
    startServer (some "8080") = { port := 8080, warned := false } :=
  have h : IsDecimalNumeral "8080".toList 8080 := ⟨by decide, by decide, by decide⟩
  ⟨h, (startServer_port (some "8080")).2.2.1 "8080".toList [] 8080 rfl h (by simp) (by decide)
    (by decide)⟩


end XenServer
